import Mathlib

/-!
# Verification of the geolite geometry kernel against its specification

Shallow embedding of the EWKB codec (`geolite-core/src/ewkb.rs`), the
emptiness classifier (`functions/emptiness.rs`), the accessor / constructor /
operation / predicate / measurement layers (`functions/*.rs`) and the SQLite
binding front-end (`geolite-sqlite/src/ffi.rs`).

Modelling conventions:
* `f64` coordinate values are represented by their 64-bit pattern as a `Nat`
  (< 2^64).  Serialisation is byte-exact, so round-trips are stated on bit
  patterns; `isNanBits` / `isInfBits` test the IEEE-754 class of a pattern.
* Machine integers are `Nat` / `Int` with explicit `% 2^w` where the Rust
  code truncates.
* Rust `Result` becomes `Except GeoErr`; `Option` stays `Option`.
* The ISO-WKB payload (de)serialisation that the Rust code delegates to the
  external `geozero` crate is modelled by `writeGeom` / `parseGeom` below:
  a byte-exact little-endian OGC WKB codec for the seven XY geometry
  variants, mirroring what `to_wkb(CoordDimensions::xy())` and
  `Ewkb(blob).to_geo()` do on the XY-only inputs that reach them.
-/

/-! ## Little-endian byte primitives -/

/-- Write the low `w` bytes of `n`, least significant first
(the little-endian serialisation used by `to_le_bytes`). -/
def toLeBytes : Nat → Nat → List Nat
  | 0, _ => []
  | w + 1, n => n % 256 :: toLeBytes w (n / 256)

/-- Recombine little-endian bytes into a `Nat`. -/
def fromBytesLE : List Nat → Nat
  | [] => 0
  | b :: bs => b + 256 * fromBytesLE bs

/-- Read `w` bytes from the stream as an unsigned little- or big-endian
integer (big-endian reads the same bytes reversed). -/
def readNat (le : Bool) (w : Nat) (bs : List Nat) : Option (Nat × List Nat) :=
  if w ≤ bs.length then
    let chunk := bs.take w
    some (fromBytesLE (if le then chunk else chunk.reverse), bs.drop w)
  else
    none

/-- Read a single byte. -/
def readByte : List Nat → Option (Nat × List Nat)
  | [] => none
  | b :: bs => some (b, bs)

/-! ## Error type (`geolite-core/src/error.rs`) -/

/-- `GeoLiteError` from `error.rs`.  The `Geozero` passthrough variant is
modelled as `codec` with an opaque message. -/
inductive GeoErr where
  | invalidEwkb (reason : String)
  | invalidInput (message : String)
  | wrongType (expected : String)
  | outOfBounds (index : Int) (len : Nat)
  | unsupportedDimensions (dims : String)
  | codec (message : String)
deriving DecidableEq, Repr

/-! ## IEEE-754 double bit patterns -/

/-- Bit pattern of `f64::NAN` (the canonical quiet NaN written by
`f64::NAN.to_le_bytes()` in `write_ewkb`). -/
def f64NanBits : Nat := 0x7FF8000000000000

/-- Bit pattern of `1.0_f64`. -/
def f64OneBits : Nat := 0x3FF0000000000000

/-- Bit pattern of `2.0_f64`. -/
def f64TwoBits : Nat := 0x4000000000000000

/-- Bit pattern of `f64::INFINITY` (the value of the literal `1e309`). -/
def f64InfBits : Nat := 0x7FF0000000000000

/-- `f64::is_nan` on a 64-bit pattern: exponent all ones and non-zero
mantissa. -/
def isNanBits (n : Nat) : Bool :=
  decide (n / 2 ^ 52 % 2 ^ 11 = 2047) && decide (n % 2 ^ 52 ≠ 0)

/-- `f64::is_finite` on a 64-bit pattern: exponent not all ones. -/
def isFiniteBits (n : Nat) : Bool :=
  decide (n / 2 ^ 52 % 2 ^ 11 ≠ 2047)

/-! ## Geometry model

`geo::Geometry<f64>` restricted to the seven OGC wire variants of the data
model (§3 of the spec).  The `Line` / `Rect` / `Triangle` specialisations are
internal to the algebra and are emitted on the wire as the corresponding OGC
type; the EWKB parser never produces them, so they do not appear here.
Coordinates are 64-bit patterns; a polygon is an exterior ring plus interior
rings, a multipolygon a list of such pairs. -/

/-- An XY coordinate as a pair of `f64` bit patterns. -/
abbrev Coord := Nat × Nat

/-- A linear ring / line of coordinates. -/
abbrev GRing := List Coord

/-- The seven OGC geometry variants over XY `f64` coordinates. -/
inductive Geom where
  | point (x y : Nat)
  | lineString (ps : GRing)
  | polygon (exterior : GRing) (interiors : List GRing)
  | multiPoint (ps : List Coord)
  | multiLineString (ls : List GRing)
  | multiPolygon (polys : List (GRing × List GRing))
  | geometryCollection (gs : List Geom)


/-- Decidable equality for `Except` (not provided by the core library). -/
def exceptDecEq {e a : Type} [DecidableEq e] [DecidableEq a] :
    (x y : Except e a) → Decidable (x = y)
  | .ok v, .ok w =>
    if h : v = w then .isTrue (by rw [h]) else .isFalse (fun he => by cases he; exact h rfl)
  | .error v, .error w =>
    if h : v = w then .isTrue (by rw [h]) else .isFalse (fun he => by cases he; exact h rfl)
  | .ok _, .error _ => .isFalse (fun h => Except.noConfusion h)
  | .error _, .ok _ => .isFalse (fun h => Except.noConfusion h)

instance {e a : Type} [DecidableEq e] [DecidableEq a] : DecidableEq (Except e a) :=
  exceptDecEq

mutual

/-- Decidable equality for the nested `Geom` inductive. -/
def geomDecEq : (x y : Geom) → Decidable (x = y)
  | .point x1 y1, .point x2 y2 =>
    if h : x1 = x2 ∧ y1 = y2 then
      .isTrue (by rw [h.1, h.2])
    else
      .isFalse (fun he => by cases he; exact h ⟨rfl, rfl⟩)
  | .lineString a1, .lineString a2 =>
    if h : a1 = a2 then
      .isTrue (by rw [h])
    else
      .isFalse (fun he => by cases he; exact h rfl)
  | .multiPoint a1, .multiPoint a2 =>
    if h : a1 = a2 then
      .isTrue (by rw [h])
    else
      .isFalse (fun he => by cases he; exact h rfl)
  | .multiLineString a1, .multiLineString a2 =>
    if h : a1 = a2 then
      .isTrue (by rw [h])
    else
      .isFalse (fun he => by cases he; exact h rfl)
  | .multiPolygon a1, .multiPolygon a2 =>
    if h : a1 = a2 then
      .isTrue (by rw [h])
    else
      .isFalse (fun he => by cases he; exact h rfl)
  | .polygon e1 i1, .polygon e2 i2 =>
    if h : e1 = e2 ∧ i1 = i2 then
      .isTrue (by rw [h.1, h.2])
    else
      .isFalse (fun he => by cases he; exact h ⟨rfl, rfl⟩)
  | .geometryCollection a1, .geometryCollection a2 =>
    match geomListDecEq a1 a2 with
    | .isTrue h => .isTrue (by rw [h])
    | .isFalse h => .isFalse (fun he => by cases he; exact h rfl)
  | .point _ _, .lineString _ => .isFalse (fun h => Geom.noConfusion h)
  | .point _ _, .polygon _ _ => .isFalse (fun h => Geom.noConfusion h)
  | .point _ _, .multiPoint _ => .isFalse (fun h => Geom.noConfusion h)
  | .point _ _, .multiLineString _ => .isFalse (fun h => Geom.noConfusion h)
  | .point _ _, .multiPolygon _ => .isFalse (fun h => Geom.noConfusion h)
  | .point _ _, .geometryCollection _ => .isFalse (fun h => Geom.noConfusion h)
  | .lineString _, .point _ _ => .isFalse (fun h => Geom.noConfusion h)
  | .lineString _, .polygon _ _ => .isFalse (fun h => Geom.noConfusion h)
  | .lineString _, .multiPoint _ => .isFalse (fun h => Geom.noConfusion h)
  | .lineString _, .multiLineString _ => .isFalse (fun h => Geom.noConfusion h)
  | .lineString _, .multiPolygon _ => .isFalse (fun h => Geom.noConfusion h)
  | .lineString _, .geometryCollection _ => .isFalse (fun h => Geom.noConfusion h)
  | .polygon _ _, .point _ _ => .isFalse (fun h => Geom.noConfusion h)
  | .polygon _ _, .lineString _ => .isFalse (fun h => Geom.noConfusion h)
  | .polygon _ _, .multiPoint _ => .isFalse (fun h => Geom.noConfusion h)
  | .polygon _ _, .multiLineString _ => .isFalse (fun h => Geom.noConfusion h)
  | .polygon _ _, .multiPolygon _ => .isFalse (fun h => Geom.noConfusion h)
  | .polygon _ _, .geometryCollection _ => .isFalse (fun h => Geom.noConfusion h)
  | .multiPoint _, .point _ _ => .isFalse (fun h => Geom.noConfusion h)
  | .multiPoint _, .lineString _ => .isFalse (fun h => Geom.noConfusion h)
  | .multiPoint _, .polygon _ _ => .isFalse (fun h => Geom.noConfusion h)
  | .multiPoint _, .multiLineString _ => .isFalse (fun h => Geom.noConfusion h)
  | .multiPoint _, .multiPolygon _ => .isFalse (fun h => Geom.noConfusion h)
  | .multiPoint _, .geometryCollection _ => .isFalse (fun h => Geom.noConfusion h)
  | .multiLineString _, .point _ _ => .isFalse (fun h => Geom.noConfusion h)
  | .multiLineString _, .lineString _ => .isFalse (fun h => Geom.noConfusion h)
  | .multiLineString _, .polygon _ _ => .isFalse (fun h => Geom.noConfusion h)
  | .multiLineString _, .multiPoint _ => .isFalse (fun h => Geom.noConfusion h)
  | .multiLineString _, .multiPolygon _ => .isFalse (fun h => Geom.noConfusion h)
  | .multiLineString _, .geometryCollection _ => .isFalse (fun h => Geom.noConfusion h)
  | .multiPolygon _, .point _ _ => .isFalse (fun h => Geom.noConfusion h)
  | .multiPolygon _, .lineString _ => .isFalse (fun h => Geom.noConfusion h)
  | .multiPolygon _, .polygon _ _ => .isFalse (fun h => Geom.noConfusion h)
  | .multiPolygon _, .multiPoint _ => .isFalse (fun h => Geom.noConfusion h)
  | .multiPolygon _, .multiLineString _ => .isFalse (fun h => Geom.noConfusion h)
  | .multiPolygon _, .geometryCollection _ => .isFalse (fun h => Geom.noConfusion h)
  | .geometryCollection _, .point _ _ => .isFalse (fun h => Geom.noConfusion h)
  | .geometryCollection _, .lineString _ => .isFalse (fun h => Geom.noConfusion h)
  | .geometryCollection _, .polygon _ _ => .isFalse (fun h => Geom.noConfusion h)
  | .geometryCollection _, .multiPoint _ => .isFalse (fun h => Geom.noConfusion h)
  | .geometryCollection _, .multiLineString _ => .isFalse (fun h => Geom.noConfusion h)
  | .geometryCollection _, .multiPolygon _ => .isFalse (fun h => Geom.noConfusion h)

/-- Decidable equality for member lists. -/
def geomListDecEq : (xs ys : List Geom) → Decidable (xs = ys)
  | [], [] => .isTrue rfl
  | [], _ :: _ => .isFalse (fun h => List.noConfusion h)
  | _ :: _, [] => .isFalse (fun h => List.noConfusion h)
  | x :: xs, y :: ys =>
    match geomDecEq x y, geomListDecEq xs ys with
    | .isTrue h1, .isTrue h2 => .isTrue (by rw [h1, h2])
    | .isFalse h1, _ => .isFalse (fun he => by cases he; exact h1 rfl)
    | _, .isFalse h2 => .isFalse (fun he => by cases he; exact h2 rfl)

end

instance : DecidableEq Geom := geomDecEq

/-- OGC WKB type code of each variant (`WKB_POINT` … `WKB_GEOMETRYCOLLECTION`). -/
def typeCode : Geom → Nat
  | .point _ _ => 1
  | .lineString _ => 2
  | .polygon _ _ => 3
  | .multiPoint _ => 4
  | .multiLineString _ => 5
  | .multiPolygon _ => 6
  | .geometryCollection _ => 7

/-! ## ISO-WKB writer (model of `geozero`'s `to_wkb(CoordDimensions::xy())`)

Little-endian OGC WKB: byte-order marker `0x01`, `u32` type code, then the
body; members of Multi* / GeometryCollection are full WKB geometries. -/

/-- Serialise one coordinate (two `f64` in little-endian). -/
def writeCoord (c : Coord) : List Nat := toLeBytes 8 c.1 ++ toLeBytes 8 c.2

/-- Serialise a coordinate list back to back. -/
def writeCoordList : List Coord → List Nat
  | [] => []
  | c :: cs => writeCoord c ++ writeCoordList cs

/-- `u32` count followed by the coordinates (a WKB ring / linestring body). -/
def writePtSeq (ps : GRing) : List Nat := toLeBytes 4 ps.length ++ writeCoordList ps

/-- Serialise a list of rings back to back. -/
def writeRingList : List GRing → List Nat
  | [] => []
  | r :: rs => writePtSeq r ++ writeRingList rs

/-- `u32` ring count followed by the rings (a WKB polygon body). -/
def writeRingSeq (rs : List GRing) : List Nat := toLeBytes 4 rs.length ++ writeRingList rs

/-- A full WKB Point geometry (header + body) for a Multi* member. -/
def writeWkbPoint (c : Coord) : List Nat := 1 :: toLeBytes 4 1 ++ writeCoord c

/-- Members of a MultiPoint, each a full WKB Point. -/
def writeWkbPointList : List Coord → List Nat
  | [] => []
  | c :: cs => writeWkbPoint c ++ writeWkbPointList cs

/-- A full WKB LineString geometry for a Multi* member. -/
def writeWkbLine (r : GRing) : List Nat := 1 :: toLeBytes 4 2 ++ writePtSeq r

/-- Members of a MultiLineString, each a full WKB LineString. -/
def writeWkbLineList : List GRing → List Nat
  | [] => []
  | r :: rs => writeWkbLine r ++ writeWkbLineList rs

/-- A full WKB Polygon geometry for a Multi* member. -/
def writeWkbPoly (q : GRing × List GRing) : List Nat :=
  1 :: toLeBytes 4 3 ++ writeRingSeq (q.1 :: q.2)

/-- Members of a MultiPolygon, each a full WKB Polygon. -/
def writeWkbPolyList : List (GRing × List GRing) → List Nat
  | [] => []
  | q :: qs => writeWkbPoly q ++ writeWkbPolyList qs

mutual

/-- WKB body of a geometry (bytes after the 5-byte header). -/
def bodyGeom : Geom → List Nat
  | .point x y => writeCoord (x, y)
  | .lineString ps => writePtSeq ps
  | .polygon e i => writeRingSeq (e :: i)
  | .multiPoint ps => toLeBytes 4 ps.length ++ writeWkbPointList ps
  | .multiLineString ls => toLeBytes 4 ls.length ++ writeWkbLineList ls
  | .multiPolygon qs => toLeBytes 4 qs.length ++ writeWkbPolyList qs
  | .geometryCollection gs => toLeBytes 4 gs.length ++ writeGeomList gs

/-- Members of a GeometryCollection, each a full WKB geometry. -/
def writeGeomList : List Geom → List Nat
  | [] => []
  | g :: gs => (1 :: toLeBytes 4 (typeCode g) ++ bodyGeom g) ++ writeGeomList gs

end

/-- Full little-endian ISO WKB of a geometry: `0x01`, `u32` type code, body. -/
def writeGeom (g : Geom) : List Nat := 1 :: toLeBytes 4 (typeCode g) ++ bodyGeom g

/-! ## ISO-WKB / EWKB payload parser (model of `geozero`'s `Ewkb(blob).to_geo()`)

The reader honours each geometry's byte-order marker and skips an embedded
SRID when the EWKB SRID flag (bit 29) is set on the type word.  Only the
seven XY variants are decoded; a type word carrying Z/M flag bits or a
non-OGC base code (including the legacy 1000/2000/3000 dimensionality
codes, which `geozero` would decode and flatten) is a codec failure here —
no theorem below relies on the payload decoder's behaviour outside the XY
wire types. -/

/-- Skip the 4 SRID bytes when bit 29 of the type word is set
(`raw / 2^29 % 2 = 1` is the arithmetic form of `raw & 0x20000000 != 0`). -/
def skipSrid (le : Bool) (raw : Nat) (bs : List Nat) : Option (List Nat) :=
  if raw / 2 ^ 29 % 2 = 1 then
    match readNat le 4 bs with
    | some (_, rest) => some rest
    | none => none
  else
    some bs

/-- Read one coordinate (two doubles). -/
def parseCoord (le : Bool) (bs : List Nat) : Option (Coord × List Nat) :=
  match readNat le 8 bs with
  | none => none
  | some (x, bs) =>
    match readNat le 8 bs with
    | none => none
    | some (y, bs) => some ((x, y), bs)

/-- Read exactly `n` coordinates. -/
def parseCoordSeq (le : Bool) : Nat → List Nat → Option (List Coord × List Nat)
  | 0, bs => some ([], bs)
  | n + 1, bs =>
    match parseCoord le bs with
    | none => none
    | some (c, bs) =>
      match parseCoordSeq le n bs with
      | none => none
      | some (cs, bs) => some (c :: cs, bs)

/-- Read a counted coordinate sequence (ring / linestring body). -/
def parsePtSeq (le : Bool) (bs : List Nat) : Option (GRing × List Nat) :=
  match readNat le 4 bs with
  | none => none
  | some (n, bs) => parseCoordSeq le n bs

/-- Read exactly `n` rings. -/
def parseRingSeq (le : Bool) : Nat → List Nat → Option (List GRing × List Nat)
  | 0, bs => some ([], bs)
  | n + 1, bs =>
    match parsePtSeq le bs with
    | none => none
    | some (r, bs) =>
      match parseRingSeq le n bs with
      | none => none
      | some (rs, bs) => some (r :: rs, bs)

/-- Read the header of a nested WKB geometry: byte-order marker, type word
(with an optional skipped SRID); returns the base type code and endianness. -/
def parseNestedHeader (bs : List Nat) : Option (Bool × Nat × List Nat) :=
  match readByte bs with
  | none => none
  | some (b0, bs) =>
    match b0 with
    | 1 => (match readNat true 4 bs with
            | none => none
            | some (raw, bs) =>
              (match skipSrid true raw bs with
               | none => none
               | some bs => some (true, raw, bs)))
    | 0 => (match readNat false 4 bs with
            | none => none
            | some (raw, bs) =>
              (match skipSrid false raw bs with
               | none => none
               | some bs => some (false, raw, bs)))
    | _ => none

/-- Read a full WKB Point member. -/
def parsePointGeom (bs : List Nat) : Option (Coord × List Nat) :=
  match parseNestedHeader bs with
  | some (le, raw, bs) => if raw % 2 ^ 29 = 1 then parseCoord le bs else none
  | none => none

/-- Read exactly `n` WKB Point members. -/
def parsePointGeomSeq : Nat → List Nat → Option (List Coord × List Nat)
  | 0, bs => some ([], bs)
  | n + 1, bs =>
    match parsePointGeom bs with
    | none => none
    | some (c, bs) =>
      match parsePointGeomSeq n bs with
      | none => none
      | some (cs, bs) => some (c :: cs, bs)

/-- Read a full WKB LineString member. -/
def parseLineGeom (bs : List Nat) : Option (GRing × List Nat) :=
  match parseNestedHeader bs with
  | some (le, raw, bs) => if raw % 2 ^ 29 = 2 then parsePtSeq le bs else none
  | none => none

/-- Read exactly `n` WKB LineString members. -/
def parseLineGeomSeq : Nat → List Nat → Option (List GRing × List Nat)
  | 0, bs => some ([], bs)
  | n + 1, bs =>
    match parseLineGeom bs with
    | none => none
    | some (r, bs) =>
      match parseLineGeomSeq n bs with
      | none => none
      | some (rs, bs) => some (r :: rs, bs)

/-- Read a full WKB Polygon member. -/
def parsePolyGeom (bs : List Nat) : Option ((GRing × List GRing) × List Nat) :=
  match parseNestedHeader bs with
  | some (le, raw, bs) =>
    if raw % 2 ^ 29 = 3 then
      match readNat le 4 bs with
      | none => none
      | some (n, bs) =>
        match parseRingSeq le n bs with
        | none => none
        | some ([], _) => none
        | some (e :: i, bs) => some ((e, i), bs)
    else none
  | none => none

/-- Read exactly `n` WKB Polygon members. -/
def parsePolyGeomSeq : Nat → List Nat → Option (List (GRing × List GRing) × List Nat)
  | 0, bs => some ([], bs)
  | n + 1, bs =>
    match parsePolyGeom bs with
    | none => none
    | some (q, bs) =>
      match parsePolyGeomSeq n bs with
      | none => none
      | some (qs, bs) => some (q :: qs, bs)

mutual

/-- Read one full WKB geometry; `fuel` bounds GeometryCollection nesting. -/
def parseGeom : Nat → List Nat → Option (Geom × List Nat)
  | 0, _ => none
  | fuel + 1, bs =>
    match parseNestedHeader bs with
    | none => none
    | some (le, raw, bs) =>
      match raw % 2 ^ 29 with
      | 1 => (match parseCoord le bs with
              | none => none
              | some (c, bs) => some (.point c.1 c.2, bs))
      | 2 => (match parsePtSeq le bs with
              | none => none
              | some (r, bs) => some (.lineString r, bs))
      | 3 => (match readNat le 4 bs with
              | none => none
              | some (n, bs) =>
                match parseRingSeq le n bs with
                | none => none
                | some ([], _) => none
                | some (e :: i, bs) => some (.polygon e i, bs))
      | 4 => (match readNat le 4 bs with
              | none => none
              | some (n, bs) =>
                match parsePointGeomSeq n bs with
                | none => none
                | some (cs, bs) => some (.multiPoint cs, bs))
      | 5 => (match readNat le 4 bs with
              | none => none
              | some (n, bs) =>
                match parseLineGeomSeq n bs with
                | none => none
                | some (rs, bs) => some (.multiLineString rs, bs))
      | 6 => (match readNat le 4 bs with
              | none => none
              | some (n, bs) =>
                match parsePolyGeomSeq n bs with
                | none => none
                | some (qs, bs) => some (.multiPolygon qs, bs))
      | 7 => (match readNat le 4 bs with
              | none => none
              | some (n, bs) =>
                match parseGeomSeq fuel n bs with
                | none => none
                | some (gs, bs) => some (.geometryCollection gs, bs))
      | _ => none

/-- Read exactly `n` WKB geometries; the fuel strictly decreases on every
recursive call so the definition is structural (and kernel-computable). -/
def parseGeomSeq : Nat → Nat → List Nat → Option (List Geom × List Nat)
  | 0, _, _ => none
  | _ + 1, 0, bs => some ([], bs)
  | fuel + 1, n + 1, bs =>
    match parseGeom fuel bs with
    | none => none
    | some (g, bs) =>
      match parseGeomSeq fuel n bs with
      | none => none
      | some (gs, bs) => some (g :: gs, bs)

end

mutual

/-- Fuel sufficient for `parseGeom` on this geometry's serialisation. -/
def gfuel : Geom → Nat
  | .geometryCollection gs => lfuel gs + 1
  | _ => 1

/-- Fuel sufficient for `parseGeomSeq` on this member list. -/
def lfuel : List Geom → Nat
  | [] => 1
  | g :: gs => max (gfuel g) (lfuel gs) + 1

end

/-! ## EWKB header and codec (`ewkb.rs`) -/

/-- Two's-complement encoding of an `i32` as a `u32`. -/
def intToU32 (s : Int) : Nat := (s % 2 ^ 32).toNat

/-- Decode a `u32` as a signed `i32`. -/
def u32ToInt (n : Nat) : Int := if n < 2 ^ 31 then (n : Int) else (n : Int) - 2 ^ 32

/-- `EwkbHeader` from `ewkb.rs`. -/
structure EwkbHeader where
  geomType : Nat
  srid : Option Int
  hasZ : Bool
  hasM : Bool
  dataOffset : Nat
  littleEndian : Bool
deriving DecidableEq, Repr

/-- `parse_ewkb_header`: peek at the EWKB header without parsing the payload.
The flag masks of the source (`& 0x80000000`, `& 0x40000000`, `& 0x20000000`,
`& 0x1FFFFFFF`) are written arithmetically as bit tests `raw / 2^k % 2` and
`raw % 2^29`, which coincide with the masks. -/
def parseEwkbHeader (blob : List Nat) : Except GeoErr EwkbHeader :=
  match blob with
  | b0 :: b1 :: b2 :: b3 :: b4 :: rest =>
    if b0 == 1 || b0 == 0 then
      let le : Bool := b0 == 1
      let raw := if le then fromBytesLE [b1, b2, b3, b4] else fromBytesLE [b4, b3, b2, b1]
      let hasZ : Bool := raw / 2 ^ 31 % 2 == 1
      let hasM : Bool := raw / 2 ^ 30 % 2 == 1
      let geomType := raw % 2 ^ 29
      if raw / 2 ^ 29 % 2 == 1 then
        match rest with
        | s0 :: s1 :: s2 :: s3 :: _ =>
          let sraw := if le then fromBytesLE [s0, s1, s2, s3] else fromBytesLE [s3, s2, s1, s0]
          pure { geomType, srid := some (u32ToInt sraw), hasZ, hasM,
                 dataOffset := 9, littleEndian := le }
        | _ => throw (.invalidEwkb "SRID flag set but blob too short")
      else
        pure { geomType, srid := none, hasZ, hasM, dataOffset := 5, littleEndian := le }
    else
      throw (.invalidEwkb "invalid byte order marker")
  | _ => throw (.invalidEwkb "blob too short")

/-- `dimensions_label`. -/
def dimensionsLabel (hasZ hasM : Bool) : String :=
  match hasZ, hasM with
  | true, true => "ZM"
  | true, false => "Z"
  | false, true => "M"
  | false, false => "XY"

/-- `ensure_xy_only`: reject Z/M coordinate layouts. -/
def ensureXyOnly (hasZ hasM : Bool) : Except GeoErr Unit :=
  if hasZ || hasM then
    throw (.unsupportedDimensions (dimensionsLabel hasZ hasM))
  else
    pure ()

/-- `point_is_empty_with_header`: a Point whose two payload doubles are both
NaN, honouring the blob's endianness. -/
def pointIsEmptyWithHeader (blob : List Nat) (h : EwkbHeader) : Except GeoErr Bool :=
  if h.geomType ≠ 1 then
    pure false
  else
    let dims := 2 + (if h.hasZ then 1 else 0) + (if h.hasM then 1 else 0)
    if blob.length < h.dataOffset + 8 * dims then
      throw (.invalidEwkb "point payload truncated")
    else
      let xChunk := (blob.drop h.dataOffset).take 8
      let yChunk := (blob.drop (h.dataOffset + 8)).take 8
      let x := fromBytesLE (if h.littleEndian then xChunk else xChunk.reverse)
      let y := fromBytesLE (if h.littleEndian then yChunk else yChunk.reverse)
      pure (isNanBits x && isNanBits y)

/-- `is_empty_point_blob`. -/
def isEmptyPointBlob (blob : List Nat) : Except GeoErr Bool := do
  let h ← parseEwkbHeader blob
  pointIsEmptyWithHeader blob h

/-- `extract_srid`: cheap header probe; header errors swallowed to `none`. -/
def extractSrid (blob : List Nat) : Option Int :=
  match parseEwkbHeader blob with
  | .ok h => h.srid
  | .error _ => none

/-- `ensure_matching_srid`: absent and zero are compatible; any other
mismatch is `InvalidInput`. -/
def ensureMatchingSrid (left right : Option Int) : Except GeoErr (Option Int) :=
  let l := left.getD 0
  let r := right.getD 0
  if l ≠ r then
    throw (.invalidInput ("operation on mixed SRID geometries (" ++ toString l
      ++ " != " ++ toString r ++ ")"))
  else if left.isNone && right.isNone then
    pure none
  else
    pure (some l)

/-- `parse_ewkb`: validate the header, reject Z/M via the header flag bits,
short-circuit the empty Point, otherwise decode the payload. -/
def parseEwkb (blob : List Nat) : Except GeoErr (Geom × Option Int) := do
  let header ← parseEwkbHeader blob
  ensureXyOnly header.hasZ header.hasM
  if ← pointIsEmptyWithHeader blob header then
    pure (.point f64NanBits f64NanBits, header.srid)
  else
    match parseGeom (blob.length + 1) blob with
    | some (g, _) => pure (g, header.srid)
    | none => throw (.codec "EWKB payload decode failed")

/-- `parse_ewkb_pair`: parse both blobs and enforce matching SRID. -/
def parseEwkbPair (a b : List Nat) : Except GeoErr (Geom × Geom × Option Int) := do
  let (ga, sridA) ← parseEwkb a
  let (gb, sridB) ← parseEwkb b
  let srid ← ensureMatchingSrid sridA sridB
  pure (ga, gb, srid)

/-- `patch_wkb_with_srid`: re-emit an ISO WKB header with the SRID flag and
an inserted SRID word (`raw | EWKB_SRID_FLAG` written arithmetically). -/
def patchWkbWithSrid (isoWkb : List Nat) (sridVal : Int) : Except GeoErr (List Nat) :=
  match isoWkb with
  | b0 :: b1 :: b2 :: b3 :: b4 :: rest =>
    if b0 == 1 || b0 == 0 then
      let le : Bool := b0 == 1
      let raw := if le then fromBytesLE [b1, b2, b3, b4] else fromBytesLE [b4, b3, b2, b1]
      let ewkbType := if raw / 2 ^ 29 % 2 == 1 then raw else raw + 2 ^ 29
      let typeBytes := if le then toLeBytes 4 ewkbType else (toLeBytes 4 ewkbType).reverse
      let sridBytes :=
        if le then toLeBytes 4 (intToU32 sridVal) else (toLeBytes 4 (intToU32 sridVal)).reverse
      pure (b0 :: (typeBytes ++ sridBytes ++ rest))
    else
      throw (.invalidEwkb "invalid byte order marker")
  | _ => throw (.invalidEwkb "WKB output too short")

/-- ISO-WKB serialisation plus optional SRID patch (the non-empty-Point arm
of `write_ewkb`). -/
def writeIsoThenPatch (g : Geom) (srid : Option Int) : Except GeoErr (List Nat) :=
  match srid with
  | some s => patchWkbWithSrid (writeGeom g) s
  | none => pure (writeGeom g)

/-- `write_ewkb`: an empty Point (both coordinates NaN) is emitted directly
with canonical `f64::NAN` payload bytes; everything else goes through the
ISO-WKB writer and the SRID patch. -/
def writeEwkb (g : Geom) (srid : Option Int) : Except GeoErr (List Nat) :=
  match g with
  | .point x y =>
    if isNanBits x && isNanBits y then
      pure (1 :: toLeBytes 4 (if srid.isSome then 1 + 2 ^ 29 else 1)
        ++ (match srid with
            | some s => toLeBytes 4 (intToU32 s)
            | none => [])
        ++ (toLeBytes 8 f64NanBits ++ toLeBytes 8 f64NanBits))
    else
      writeIsoThenPatch (.point x y) srid
  | _ => writeIsoThenPatch g srid

/-! ## Emptiness classifier (`functions/emptiness.rs`) -/

/-- `is_empty_point`: both coordinates NaN. -/
def isEmptyPointG (c : Coord) : Bool := isNanBits c.1 && isNanBits c.2

mutual

/-- `is_empty_geometry`: the uniform recursive emptiness classifier. -/
def isEmptyGeometry : Geom → Bool
  | .point x y => isNanBits x && isNanBits y
  | .lineString ls => ls.isEmpty
  | .polygon e _ => e.isEmpty
  | .multiPoint mp => mp.isEmpty || mp.all isEmptyPointG
  | .multiLineString mls => mls.isEmpty || mls.all List.isEmpty
  | .multiPolygon mp => mp.isEmpty || mp.all (fun q => q.1.isEmpty)
  | .geometryCollection gc => gc.isEmpty || allEmptyGeomList gc

/-- `iter().all(is_empty_geometry)` over collection members. -/
def allEmptyGeomList : List Geom → Bool
  | [] => true
  | g :: gs => isEmptyGeometry g && allEmptyGeomList gs

end

/-! ## Accessors (`functions/accessors.rs`) -/

/-- `st_is_empty` (ST_IsEmpty), translated arm by arm from `accessors.rs`
lines 135-150: a Point is never empty here and the collection arms test only
the member count (the `Line` / `Rect` / `Triangle` arms of the source,
likewise `false`, have no wire representation and are omitted). -/
def stIsEmpty (blob : List Nat) : Except GeoErr Bool := do
  let (geom, _) ← parseEwkb blob
  pure (match geom with
    | .point _ _ => false
    | .lineString ls => ls.isEmpty
    | .polygon p _ => p.isEmpty
    | .multiPoint mp => mp.isEmpty
    | .multiLineString mls => mls.isEmpty
    | .multiPolygon mp => mp.isEmpty
    | .geometryCollection gc => gc.isEmpty)

/-- `st_x` (ST_X): X coordinate of a Point, `WrongType` otherwise. -/
def stX (blob : List Nat) : Except GeoErr Nat := do
  let (geom, _) ← parseEwkb blob
  match geom with
  | .point x _ => pure x
  | _ => throw (.wrongType "Point")

/-- `st_y` (ST_Y): Y coordinate of a Point, `WrongType` otherwise. -/
def stY (blob : List Nat) : Except GeoErr Nat := do
  let (geom, _) ← parseEwkb blob
  match geom with
  | .point _ y => pure y
  | _ => throw (.wrongType "Point")

/-! ## Constructors (`functions/constructors.rs`) -/

/-- `st_point` (ST_Point / ST_MakePoint): serialise the Point directly. -/
def stPoint (x y : Nat) (srid : Option Int) : Except GeoErr (List Nat) :=
  writeEwkb (.point x y) srid

/-- `st_make_line` (ST_MakeLine): both inputs must be Points; the result is
written with the SRID parsed from the **first** input. -/
def stMakeLine (a b : List Nat) : Except GeoErr (List Nat) := do
  let (ga, srid) ← parseEwkb a
  let (gb, _) ← parseEwkb b
  let pa ← match ga with
    | .point x y => pure ((x, y) : Coord)
    | _ => throw (.wrongType "Point")
  let pb ← match gb with
    | .point x y => pure ((x, y) : Coord)
    | _ => throw (.wrongType "Point")
  writeEwkb (.lineString [pa, pb]) srid

/-- `st_collect` (ST_Collect): wrap both inputs in a GeometryCollection,
written with the SRID parsed from the **first** input. -/
def stCollect (a b : List Nat) : Except GeoErr (List Nat) := do
  let (ga, srid) ← parseEwkb a
  let (gb, _) ← parseEwkb b
  writeEwkb (.geometryCollection [ga, gb]) srid

/-! ## Set operations (`functions/operations.rs`) -/

/-- `require_multi_polygon`: promote a Polygon to a one-element MultiPolygon. -/
def requireMultiPolygon : Geom → Except GeoErr (List (GRing × List GRing))
  | .polygon p i => pure [(p, i)]
  | .multiPolygon mp => pure mp
  | _ => throw (.wrongType "Polygon or MultiPolygon")

/-- `binary_polygon_op`: parse the pair with matching SRID, promote both to
MultiPolygon, apply the boolean operation, and emit the result — always as a
`Geometry::MultiPolygon`. -/
def binaryPolygonOp
    (op : List (GRing × List GRing) → List (GRing × List GRing) → List (GRing × List GRing))
    (a b : List Nat) : Except GeoErr (List Nat) := do
  let (ga, gb, srid) ← parseEwkbPair a b
  let ma ← requireMultiPolygon ga
  let mb ← requireMultiPolygon gb
  pure (← writeEwkb (.multiPolygon (op ma mb)) srid)

/-- Modelled from the spec: the external `geo` crate's
`BooleanOps::union` is not part of this repository; only the value needed by
the concrete counterexample is pinned — the geometric union of a multipolygon
with itself is the operand itself (§4.3.4, the union's point set).  Used as
the `op` of `binaryPolygonOp` for `st_union(a, a)`. -/
def unionWithSelf (m : List (GRing × List GRing)) : List (GRing × List GRing) := m

/-- `st_union(a, a)`: `binary_polygon_op` with the union of the (identical)
operands, which `unionWithSelf` pins to the operand itself. -/
def stUnionSelf (a : List Nat) : Except GeoErr (List Nat) :=
  binaryPolygonOp (fun ma _ => unionWithSelf ma) a a

/-! ## DE-9IM (`functions/predicates.rs`) -/

/-- `de9im_pattern_match`: the pure DE-9IM matcher.  Wrong lengths and
unknown pattern characters yield `false`, not an error. -/
def de9imPatternMatch (matrix pattern : String) : Bool :=
  if matrix.length ≠ 9 || pattern.length ≠ 9 then
    false
  else
    (matrix.toList.zip pattern.toList).all fun mp =>
      match mp.2 with
      | '*' => true
      | 'T' => mp.1 == '0' || mp.1 == '1' || mp.1 == '2'
      | 'F' => mp.1 == 'F'
      | '0' => mp.1 == '0'
      | '1' => mp.1 == '1'
      | '2' => mp.1 == '2'
      | _ => false

/-- `st_relate_match` (ST_RelateMatch): returns a `bool`, with no error
channel in its signature. -/
def stRelateMatch (matrix pattern : String) : Bool :=
  de9imPatternMatch matrix pattern

/-- Modelled from the spec: the external `geo` crate's relate engine
(`ga.relate(&gb)`) is not part of this repository.  No theorem below depends
on the matrix value — the pattern-form claims are decided before the matrix
is inspected — so it is left as the all-`F` placeholder matrix. -/
def relateMatrix (_ga _gb : Geom) : String := "FFFFFFFFF"

/-- Modelled from the `geo` crate (external): `IntersectionMatrix::matches`
first parses the 9-character pattern and fails on a wrong length or a
character outside `{T, F, *, 0, 1, 2}`; on a valid pattern it matches like
`de9im_pattern_match`. -/
def matchesPattern (matrix pattern : String) : Except String Bool :=
  if pattern.length ≠ 9 then
    throw "invalid pattern length"
  else if pattern.toList.any (fun c =>
      !(c == 'T' || c == 'F' || c == '*' || c == '0' || c == '1' || c == '2')) then
    throw "invalid pattern character"
  else
    pure (de9imPatternMatch matrix pattern)

/-- `st_relate_match_geoms` (three-argument ST_Relate): parse both blobs,
enforce matching SRID, then `matches(pattern).unwrap_or(false)`. -/
def stRelateMatchGeoms (a b : List Nat) (pattern : String) : Except GeoErr Bool := do
  let (ga, sridA) ← parseEwkb a
  let (gb, sridB) ← parseEwkb b
  let _ ← ensureMatchingSrid sridA sridB
  pure ((matchesPattern (relateMatrix ga gb) pattern).toOption.getD false)

/-! ## I/O helpers (`functions/io.rs`) -/

/-- `read_raw_wkb_type`: read the raw `u32` type word of a WKB blob. -/
def readRawWkbType (wkb : List Nat) : Except GeoErr Nat :=
  match wkb with
  | b0 :: b1 :: b2 :: b3 :: b4 :: _ =>
    if b0 == 1 then
      pure (fromBytesLE [b1, b2, b3, b4])
    else if b0 == 0 then
      pure (fromBytesLE [b4, b3, b2, b1])
    else
      throw (.invalidEwkb "invalid byte order marker")
  | _ => throw (.invalidEwkb "blob too short")

/-- `wkb_has_z_or_m`: EWKB flag bits, otherwise the legacy ISO dimensionality
encoding `base + 1000/2000/3000` (`raw_type / 1000` decides). -/
def wkbHasZOrM (rawType : Nat) : Bool × Bool :=
  let hasEwkbZ : Bool := rawType / 2 ^ 31 % 2 == 1
  let hasEwkbM : Bool := rawType / 2 ^ 30 % 2 == 1
  if hasEwkbZ || hasEwkbM then
    (hasEwkbZ, hasEwkbM)
  else
    match rawType / 1000 with
    | 1 => (true, false)
    | 2 => (false, true)
    | 3 => (true, true)
    | _ => (false, false)

/-- `geom_from_wkb` (ST_GeomFromWKB): normalise the type word through
`wkb_has_z_or_m`, reject Z/M, short-circuit the empty Point, otherwise
decode and re-emit with the requested SRID. -/
def geomFromWkb (wkb : List Nat) (srid : Option Int) : Except GeoErr (List Nat) := do
  let rawType ← readRawWkbType wkb
  let zm := wkbHasZOrM rawType
  ensureXyOnly zm.1 zm.2
  if ← isEmptyPointBlob wkb then
    writeEwkb (.point f64NanBits f64NanBits) srid
  else
    match parseGeom (wkb.length + 1) wkb with
    | some (g, _) => writeEwkb g srid
    | none => throw (.codec "WKB payload decode failed")

/-! ## Measurement guards and geodetic operations (`functions/measurement.rs`)

The numeric evaluations (`Haversine.distance`, `Geodesic.distance`,
`Geodesic.bearing`, `Geodesic.destination`, `Haversine.length`) are external
`geo`-crate floating-point computations with no error path; since every
claim about these operations concerns only their success/failure discipline,
the functions below return `Unit` in place of the computed number.  Every
guard on the way to the computation is translated from the source. -/

/-- `ensure_geographic_srid`: geodetic operations demand SRID 4326. -/
def ensureGeographicSrid (srid : Option Int) (fnName : String) : Except GeoErr Unit :=
  match srid with
  | some 4326 => pure ()
  | some s =>
    throw (.invalidInput (fnName ++ " requires SRID 4326 (got " ++ toString s ++ ")"))
  | none =>
    throw (.invalidInput (fnName ++ " requires SRID 4326 (got unknown/unspecified SRID)"))

/-- `ensure_matching_geographic_srid`. -/
def ensureMatchingGeographicSrid (left right : Option Int) (fnName : String) :
    Except GeoErr (Option Int) := do
  let srid ← ensureMatchingSrid left right
  ensureGeographicSrid srid fnName
  pure srid

/-- `require_point`. -/
def requirePoint : Geom → Except GeoErr Coord
  | .point x y => pure (x, y)
  | _ => throw (.wrongType "Point")

/-- `require_non_empty_point`: reject a Point with a NaN coordinate. -/
def requireNonEmptyPoint (c : Coord) (fnName : String) : Except GeoErr Coord :=
  if isNanBits c.1 || isNanBits c.2 then
    throw (.invalidInput (fnName ++ " does not accept empty points"))
  else
    pure c

/-- `parse_two_geographic_points`. -/
def parseTwoGeographicPoints (a b : List Nat) (fnName : String) :
    Except GeoErr (Coord × Coord × Option Int) := do
  let (ga, sridA) ← parseEwkb a
  let (gb, sridB) ← parseEwkb b
  let srid ← ensureMatchingGeographicSrid sridA sridB fnName
  let pa ← requireNonEmptyPoint (← requirePoint ga) fnName
  let pb ← requireNonEmptyPoint (← requirePoint gb) fnName
  pure (pa, pb, srid)

/-- `st_distance_sphere` (ST_DistanceSphere); the Haversine number elided. -/
def stDistanceSphere (a b : List Nat) : Except GeoErr Unit := do
  let _ ← parseTwoGeographicPoints a b "ST_DistanceSphere"
  pure ()

/-- `st_distance_spheroid` (ST_DistanceSpheroid); the geodesic number elided. -/
def stDistanceSpheroid (a b : List Nat) : Except GeoErr Unit := do
  let _ ← parseTwoGeographicPoints a b "ST_DistanceSpheroid"
  pure ()

/-- `st_azimuth` (ST_Azimuth); the bearing number elided. -/
def stAzimuth (origin target : List Nat) : Except GeoErr Unit := do
  let _ ← parseTwoGeographicPoints origin target "ST_Azimuth"
  pure ()

/-- `st_length_sphere` (ST_LengthSphere): LineString or MultiLineString with
SRID 4326; the Haversine sum elided. -/
def stLengthSphere (blob : List Nat) : Except GeoErr Unit := do
  let (geom, srid) ← parseEwkb blob
  ensureGeographicSrid srid "ST_LengthSphere"
  match geom with
  | .lineString _ => pure ()
  | .multiLineString _ => pure ()
  | _ => throw (.wrongType "LineString or MultiLineString")

/-- `st_project` (ST_Project): origin must be a non-empty Point with SRID
4326; the destination computation and its re-serialisation are elided
(`write_ewkb` of a computed finite point cannot fail). -/
def stProject (origin : List Nat) (_distance _azimuth : Nat) : Except GeoErr Unit := do
  let (go, srid) ← parseEwkb origin
  ensureGeographicSrid srid "ST_Project"
  let _ ← requireNonEmptyPoint (← requirePoint go) "ST_Project"
  pure ()

/-! ## SQLite binding front-end (`geolite-sqlite/src/ffi.rs`)

The C ABI surface is modelled by its dataflow: an argument slot is either
SQL NULL or a value of the extracted kind, and a callback produces NULL, a
value, or an error string.  The generated callbacks of `xfunc_blob!` /
`xfunc_blob2!` / `xfunc_blob_opt_f64!` are modelled by the corresponding
combinators; the host-side DDL execution of the spatial-index helpers
(savepoints, R-tree DDL, triggers) is elided — it is reached only after
`get_table_column` has accepted both identifiers. -/

/-- Result of a scalar SQL callback. -/
inductive SqlOut (α : Type) where
  | null
  | value (v : α)
  | error (msg : String)
deriving DecidableEq, Repr

/-- A text argument slot as classified by `get_text`. -/
inductive SqlTextArg where
  | sqlNull
  | value (s : String)
  | invalidUtf8
deriving DecidableEq, Repr

/-- Render a `GeoErr` as the message appended after the function label
(the `Display` impl of `error.rs`, kept abstract). -/
def geoErrMsg : GeoErr → String
  | .invalidEwkb r => "invalid EWKB: " ++ r
  | .invalidInput m => m
  | .wrongType e => "expected " ++ e
  | .outOfBounds i l => "index " ++ toString i ++ " out of bounds (len " ++ toString l ++ ")"
  | .unsupportedDimensions d => "unsupported coordinate dimensions: " ++ d
  | .codec m => m

/-- `xfunc_blob!`: one blob argument; SQL NULL propagates to NULL before the
core function runs. -/
def xfuncBlob {α : Type} (label : String) (f : List Nat → Except GeoErr α)
    (arg : Option (List Nat)) : SqlOut α :=
  match arg with
  | none => .null
  | some b =>
    match f b with
    | .ok v => .value v
    | .error e => .error (label ++ ": " ++ geoErrMsg e)

/-- `xfunc_blob2!`: two blob arguments; a SQL NULL in either slot propagates
to NULL before the core function runs. -/
def xfuncBlob2 {α : Type} (label : String) (f : List Nat → List Nat → Except GeoErr α)
    (a b : Option (List Nat)) : SqlOut α :=
  match a with
  | none => .null
  | some av =>
    match b with
    | none => .null
    | some bv =>
      match f av bv with
      | .ok v => .value v
      | .error e => .error (label ++ ": " ++ geoErrMsg e)

/-- `xfunc_blob_opt_f64!`: one blob argument, `Ok(None)` maps to SQL NULL. -/
def xfuncBlobOptF64 (label : String) (f : List Nat → Except GeoErr (Option Nat))
    (arg : Option (List Nat)) : SqlOut Nat :=
  match arg with
  | none => .null
  | some b =>
    match f b with
    | .ok (some v) => .value v
    | .ok none => .null
    | .error e => .error (label ++ ": " ++ geoErrMsg e)

/-- `validate_identifier`: non-empty and `[A-Za-z0-9_]` only. -/
def validateIdentifier (s : String) : Option String :=
  if s.isEmpty then
    none
  else if s.toList.all (fun c => c.isAlphanum || c == '_') then
    some s
  else
    none

/-- `get_table_column`: extract and validate the two identifier arguments of
the spatial-index DDL helpers; a NULL slot raises an error (it does not
propagate NULL). -/
def getTableColumn (t c : SqlTextArg) (label : String) :
    Except String (String × String) := do
  let table ← match t with
    | .value v => pure v
    | .sqlNull => throw (label ++ ": table name must not be NULL")
    | .invalidUtf8 => throw (label ++ ": table name must be valid UTF-8 text")
  let column ← match c with
    | .value v => pure v
    | .sqlNull => throw (label ++ ": column name must not be NULL")
    | .invalidUtf8 => throw (label ++ ": column name must be valid UTF-8 text")
  let table ← match validateIdentifier table with
    | some v => pure v
    | none => throw (label ++ ": invalid table name (only [a-zA-Z0-9_] allowed)")
  let column ← match validateIdentifier column with
    | some v => pure v
    | none => throw (label ++ ": invalid column name (only [a-zA-Z0-9_] allowed)")
  pure (table, column)

/-- `create_spatial_index_xfunc`: argument handling of CreateSpatialIndex.
On identifier failure the error is surfaced; the savepoint-wrapped DDL that
follows acceptance is elided (it returns 1 on success). -/
def createSpatialIndexXfunc (t c : SqlTextArg) : SqlOut Int :=
  match getTableColumn t c "CreateSpatialIndex" with
  | .error m => .error m
  | .ok _ => .value 1

/-- `drop_spatial_index_xfunc`: argument handling of DropSpatialIndex; same
shape as `createSpatialIndexXfunc`. -/
def dropSpatialIndexXfunc (t c : SqlTextArg) : SqlOut Int :=
  match getTableColumn t c "DropSpatialIndex" with
  | .error m => .error m
  | .ok _ => .value 1

/-- `st_point_impl`: the ST_Point callback checks `any_arg_is_null` over its
positional arguments first and sets NULL before extracting numbers.  `x` and
`y` are numeric slots (bit patterns when present). -/
def stPointImpl (x y : Option Nat) (srid : Option (Option Int)) : SqlOut (List Nat) :=
  match x, y, srid with
  | some xv, some yv, some sridV =>
    (match stPoint xv yv sridV with
     | .ok blob => .value blob
     | .error e => .error ("ST_Point: " ++ geoErrMsg e))
  | _, _, _ => .null

/-! ## Well-formedness and canonical form

Side conditions inherent to the Rust types: coordinates are 64-bit `f64`
patterns and every sequence length is serialised through a `u32`. -/

/-- Both bit patterns fit in 64 bits. -/
def coordWfB (c : Coord) : Bool := decide (c.1 < 2 ^ 64) && decide (c.2 < 2 ^ 64)

/-- Ring length fits in a `u32`, coordinates fit in 64 bits. -/
def ringWfB (r : GRing) : Bool := decide (r.length < 2 ^ 32) && r.all coordWfB

/-- Ring count and all rings well-formed for a polygon (exterior, interiors). -/
def polyWfB (q : GRing × List GRing) : Bool :=
  decide ((q.1 :: q.2).length < 2 ^ 32) && (q.1 :: q.2).all ringWfB

mutual

/-- All counts fit in `u32`, all coordinates in 64 bits. -/
def geomWfB : Geom → Bool
  | .point x y => decide (x < 2 ^ 64) && decide (y < 2 ^ 64)
  | .lineString ps => ringWfB ps
  | .polygon e i => polyWfB (e, i)
  | .multiPoint ps => decide (ps.length < 2 ^ 32) && ps.all coordWfB
  | .multiLineString ls => decide (ls.length < 2 ^ 32) && ls.all ringWfB
  | .multiPolygon qs => decide (qs.length < 2 ^ 32) && qs.all polyWfB
  | .geometryCollection gs => decide (gs.length < 2 ^ 32) && geomListWfB gs

/-- Well-formedness over a member list. -/
def geomListWfB : List Geom → Bool
  | [] => true
  | g :: gs => geomWfB g && geomListWfB gs

end

/-- The empty Point is in its canonical representation: a top-level Point
whose coordinates are both NaN carries exactly the `f64::NAN` pattern (the
representation named by the spec, and the one `write_ewkb` itself emits). -/
def topCanonB : Geom → Bool
  | .point x y =>
    !(isNanBits x && isNanBits y) || (x == f64NanBits && y == f64NanBits)
  | _ => true

/-! ## Concrete inputs used by counterexamples and witnesses -/

/-- EWKB of `POINT EMPTY` without SRID (little-endian, NaN/NaN payload). -/
def blobEmptyPoint : List Nat :=
  1 :: toLeBytes 4 1 ++ (toLeBytes 8 f64NanBits ++ toLeBytes 8 f64NanBits)

/-- EWKB of `POINT EMPTY` with SRID 4326. -/
def blobEmptyPoint4326 : List Nat :=
  1 :: toLeBytes 4 (1 + 2 ^ 29) ++ (toLeBytes 4 4326 ++ (toLeBytes 8 f64NanBits ++ toLeBytes 8 f64NanBits))

/-- EWKB of `POINT(1 2)` without SRID. -/
def blobPoint12 : List Nat :=
  1 :: toLeBytes 4 1 ++ (toLeBytes 8 f64OneBits ++ toLeBytes 8 f64TwoBits)

/-- EWKB of `POINT(1 2)` with SRID 4326. -/
def blobPoint4326 : List Nat :=
  1 :: toLeBytes 4 (1 + 2 ^ 29) ++ (toLeBytes 4 4326 ++ (toLeBytes 8 f64OneBits ++ toLeBytes 8 f64TwoBits))

/-- EWKB of `POINT(2 1)` with SRID 4326. -/
def blobPointB4326 : List Nat :=
  1 :: toLeBytes 4 (1 + 2 ^ 29) ++ (toLeBytes 4 4326 ++ (toLeBytes 8 f64TwoBits ++ toLeBytes 8 f64OneBits))

/-- EWKB of `POINT(2 1)` with SRID 3857. -/
def blobPoint3857 : List Nat :=
  1 :: toLeBytes 4 (1 + 2 ^ 29) ++ (toLeBytes 4 3857 ++ (toLeBytes 8 f64TwoBits ++ toLeBytes 8 f64OneBits))

/-- The unit-square ring `(0 0, 1 0, 1 1, 0 1, 0 0)` as bit patterns. -/
def unitSquareRing : GRing :=
  [(0, 0), (f64OneBits, 0), (f64OneBits, f64OneBits), (0, f64OneBits), (0, 0)]

/-- EWKB of the unit-square `POLYGON` without SRID. -/
def blobUnitSquare : List Nat := writeGeom (.polygon unitSquareRing [])

/-- EWKB of `LINESTRING(1 2, 2 1)` without SRID. -/
def blobLine : List Nat := writeGeom (.lineString [(f64OneBits, f64TwoBits), (f64TwoBits, f64OneBits)])

/-- EWKB of `LINESTRING(1 2, 2 1)` with SRID 4326. -/
def blobLine4326 : List Nat :=
  1 :: toLeBytes 4 (2 + 2 ^ 29) ++ (toLeBytes 4 4326
    ++ (toLeBytes 4 2 ++ (toLeBytes 8 f64OneBits ++ toLeBytes 8 f64TwoBits
        ++ (toLeBytes 8 f64TwoBits ++ toLeBytes 8 f64OneBits))))

/-- EWKB of `GEOMETRYCOLLECTION(LINESTRING EMPTY)` without SRID. -/
def blobGcEmptyLine : List Nat := writeGeom (.geometryCollection [.lineString []])

/-- A WKB blob using the legacy ISO dimensionality code `1001`
(Point + 1000 = Point Z), with three payload doubles. -/
def blobLegacyZPoint : List Nat :=
  1 :: toLeBytes 4 1001 ++ (toLeBytes 8 f64OneBits ++ (toLeBytes 8 f64TwoBits ++ toLeBytes 8 0))

/-! ## Round-trip lemmas for the WKB codec -/

theorem toLeBytes_length (w n : Nat) : (toLeBytes w n).length = w := by
  induction w generalizing n with
  | zero => rfl
  | succ w ih => simp [toLeBytes, ih]

theorem fromBytesLE_toLeBytes (w n : Nat) :
    fromBytesLE (toLeBytes w n) = n % 256 ^ w := by
  induction w generalizing n with
  | zero => simp [toLeBytes, fromBytesLE, Nat.mod_one]
  | succ w ih =>
    show n % 256 + 256 * fromBytesLE (toLeBytes w (n / 256)) = n % 256 ^ (w + 1)
    rw [ih, pow_succ']
    exact Nat.mod_mul.symm

theorem readNat_toLeBytes (w n : Nat) (rest : List Nat) (h : n < 256 ^ w) :
    readNat true w (toLeBytes w n ++ rest) = some (n, rest) := by
  have hlen : (toLeBytes w n).length = w := toLeBytes_length w n
  have htake : (toLeBytes w n ++ rest).take w = toLeBytes w n :=
    List.take_left' hlen
  have hdrop : (toLeBytes w n ++ rest).drop w = rest :=
    List.drop_left' hlen
  simp [readNat, htake, hdrop, fromBytesLE_toLeBytes, Nat.mod_eq_of_lt h, hlen]

theorem pow256_8 : (256 : Nat) ^ 8 = 2 ^ 64 := by norm_num

theorem pow256_4 : (256 : Nat) ^ 4 = 2 ^ 32 := by norm_num

theorem parseCoord_writeCoord (c : Coord) (rest : List Nat)
    (h : coordWfB c = true) :
    parseCoord true (writeCoord c ++ rest) = some (c, rest) := by
  obtain ⟨x, y⟩ := c
  simp only [coordWfB, Bool.and_eq_true, decide_eq_true_eq] at h
  have hx : x < 256 ^ 8 := by rw [pow256_8]; exact h.1
  have hy : y < 256 ^ 8 := by rw [pow256_8]; exact h.2
  simp [writeCoord, parseCoord, List.append_assoc,
    readNat_toLeBytes 8 x _ hx, readNat_toLeBytes 8 y _ hy]

theorem parseCoordSeq_writeCoordList (ps : List Coord) (rest : List Nat)
    (h : ps.all coordWfB = true) :
    parseCoordSeq true ps.length (writeCoordList ps ++ rest) = some (ps, rest) := by
  induction ps with
  | nil => simp [writeCoordList, parseCoordSeq]
  | cons c cs ih =>
    simp only [List.all_cons, Bool.and_eq_true] at h
    simp [writeCoordList, parseCoordSeq, List.append_assoc,
      parseCoord_writeCoord c _ h.1, ih h.2]

theorem parsePtSeq_writePtSeq (ps : GRing) (rest : List Nat)
    (h : ringWfB ps = true) :
    parsePtSeq true (writePtSeq ps ++ rest) = some (ps, rest) := by
  simp only [ringWfB, Bool.and_eq_true, decide_eq_true_eq] at h
  have hn : ps.length < 256 ^ 4 := by rw [pow256_4]; exact h.1
  simp [writePtSeq, parsePtSeq, List.append_assoc,
    readNat_toLeBytes 4 ps.length _ hn, parseCoordSeq_writeCoordList ps rest h.2]

theorem parseRingSeq_writeRingList (rs : List GRing) (rest : List Nat)
    (h : rs.all ringWfB = true) :
    parseRingSeq true rs.length (writeRingList rs ++ rest) = some (rs, rest) := by
  induction rs with
  | nil => simp [writeRingList, parseRingSeq]
  | cons r rs ih =>
    simp only [List.all_cons, Bool.and_eq_true] at h
    simp [writeRingList, parseRingSeq, List.append_assoc,
      parsePtSeq_writePtSeq r _ h.1, ih h.2]

theorem parseNestedHeader_shape (t : Nat) (ht : t < 2 ^ 29) (body : List Nat) :
    parseNestedHeader (1 :: (toLeBytes 4 t ++ body)) = some (true, t, body) := by
  have htn : t < 256 ^ 4 := by rw [pow256_4]; omega
  have ht' : t < 536870912 := by norm_num at ht; omega
  have hdiv : t / 536870912 = 0 := Nat.div_eq_of_lt ht'
  simp [parseNestedHeader, readByte, readNat_toLeBytes 4 t body htn, skipSrid, hdiv]

theorem parsePointGeom_writeWkbPoint (c : Coord) (rest : List Nat)
    (h : coordWfB c = true) :
    parsePointGeom (writeWkbPoint c ++ rest) = some (c, rest) := by
  simp [writeWkbPoint, parsePointGeom, List.append_assoc,
    parseNestedHeader_shape 1 (by norm_num),
    parseCoord_writeCoord c rest h]

theorem parsePointGeomSeq_writeWkbPointList (ps : List Coord) (rest : List Nat)
    (h : ps.all coordWfB = true) :
    parsePointGeomSeq ps.length (writeWkbPointList ps ++ rest) = some (ps, rest) := by
  induction ps with
  | nil => simp [writeWkbPointList, parsePointGeomSeq]
  | cons c cs ih =>
    simp only [List.all_cons, Bool.and_eq_true] at h
    simp [writeWkbPointList, parsePointGeomSeq, List.append_assoc,
      parsePointGeom_writeWkbPoint c _ h.1, ih h.2]

theorem parseLineGeom_writeWkbLine (r : GRing) (rest : List Nat)
    (h : ringWfB r = true) :
    parseLineGeom (writeWkbLine r ++ rest) = some (r, rest) := by
  simp [writeWkbLine, parseLineGeom, List.append_assoc,
    parseNestedHeader_shape 2 (by norm_num),
    parsePtSeq_writePtSeq r rest h]

theorem parseLineGeomSeq_writeWkbLineList (ls : List GRing) (rest : List Nat)
    (h : ls.all ringWfB = true) :
    parseLineGeomSeq ls.length (writeWkbLineList ls ++ rest) = some (ls, rest) := by
  induction ls with
  | nil => simp [writeWkbLineList, parseLineGeomSeq]
  | cons r rs ih =>
    simp only [List.all_cons, Bool.and_eq_true] at h
    simp [writeWkbLineList, parseLineGeomSeq, List.append_assoc,
      parseLineGeom_writeWkbLine r _ h.1, ih h.2]

theorem parsePolyGeom_writeWkbPoly (q : GRing × List GRing) (rest : List Nat)
    (h : polyWfB q = true) :
    parsePolyGeom (writeWkbPoly q ++ rest) = some (q, rest) := by
  obtain ⟨e, i⟩ := q
  simp only [polyWfB, Bool.and_eq_true, decide_eq_true_eq] at h
  have hn : i.length + 1 < 256 ^ 4 := by
    rw [pow256_4]; simpa using h.1
  have hr := parseRingSeq_writeRingList (e :: i) rest h.2
  simp only [List.length_cons] at hr
  simp [writeWkbPoly, parsePolyGeom, writeRingSeq, List.append_assoc,
    parseNestedHeader_shape 3 (by norm_num),
    readNat_toLeBytes 4 (i.length + 1) _ hn, hr]

theorem parsePolyGeomSeq_writeWkbPolyList (qs : List (GRing × List GRing)) (rest : List Nat)
    (h : qs.all polyWfB = true) :
    parsePolyGeomSeq qs.length (writeWkbPolyList qs ++ rest) = some (qs, rest) := by
  induction qs with
  | nil => simp [writeWkbPolyList, parsePolyGeomSeq]
  | cons q qs ih =>
    simp only [List.all_cons, Bool.and_eq_true] at h
    simp [writeWkbPolyList, parsePolyGeomSeq, List.append_assoc,
      parsePolyGeom_writeWkbPoly q _ h.1, ih h.2]

theorem gfuel_pos (g : Geom) : 1 ≤ gfuel g := by
  cases g <;> simp [gfuel]

theorem writeGeomList_cons (g : Geom) (gs : List Geom) :
    writeGeomList (g :: gs) = writeGeom g ++ writeGeomList gs := by
  simp [writeGeomList, writeGeom]

mutual

theorem parseGeom_writeGeom (g : Geom) (rest : List Nat) (fuel : Nat)
    (hf : gfuel g ≤ fuel + 1) (hw : geomWfB g = true) :
    parseGeom (fuel + 1) (writeGeom g ++ rest) = some (g, rest) := by
  cases g with
  | point x y =>
    simp [writeGeom, typeCode, bodyGeom, parseGeom, List.append_assoc,
      parseNestedHeader_shape 1 (by norm_num),
      parseCoord_writeCoord (x, y) rest (by simpa [geomWfB, coordWfB] using hw)]
  | lineString ps =>
    simp [writeGeom, typeCode, bodyGeom, parseGeom, List.append_assoc,
      parseNestedHeader_shape 2 (by norm_num),
      parsePtSeq_writePtSeq ps rest (by simpa [geomWfB] using hw)]
  | polygon e i =>
    have hw' : polyWfB (e, i) = true := by simpa [geomWfB] using hw
    have h1 : (e :: i).length < 2 ^ 32 := by
      simp only [polyWfB, Bool.and_eq_true, decide_eq_true_eq] at hw'
      exact hw'.1
    have hn : i.length + 1 < 256 ^ 4 := by
      rw [pow256_4]; simpa using h1
    have hr := parseRingSeq_writeRingList (e :: i) rest (by
      simp only [polyWfB, Bool.and_eq_true, decide_eq_true_eq] at hw'
      exact hw'.2)
    simp only [List.length_cons] at hr
    simp [writeGeom, typeCode, bodyGeom, writeRingSeq, parseGeom, List.append_assoc,
      parseNestedHeader_shape 3 (by norm_num),
      readNat_toLeBytes 4 (i.length + 1) _ hn, hr]
  | multiPoint ps =>
    have hw' : ps.length < 2 ^ 32 ∧ ps.all coordWfB = true := by
      simpa [geomWfB] using hw
    have hn : ps.length < 256 ^ 4 := by rw [pow256_4]; exact hw'.1
    simp [writeGeom, typeCode, bodyGeom, parseGeom, List.append_assoc,
      parseNestedHeader_shape 4 (by norm_num),
      readNat_toLeBytes 4 ps.length _ hn,
      parsePointGeomSeq_writeWkbPointList ps rest hw'.2]
  | multiLineString ls =>
    have hw' : ls.length < 2 ^ 32 ∧ ls.all ringWfB = true := by
      simpa [geomWfB] using hw
    have hn : ls.length < 256 ^ 4 := by rw [pow256_4]; exact hw'.1
    simp [writeGeom, typeCode, bodyGeom, parseGeom, List.append_assoc,
      parseNestedHeader_shape 5 (by norm_num),
      readNat_toLeBytes 4 ls.length _ hn,
      parseLineGeomSeq_writeWkbLineList ls rest hw'.2]
  | multiPolygon qs =>
    have hw' : qs.length < 2 ^ 32 ∧ qs.all polyWfB = true := by
      simpa [geomWfB] using hw
    have hn : qs.length < 256 ^ 4 := by rw [pow256_4]; exact hw'.1
    simp [writeGeom, typeCode, bodyGeom, parseGeom, List.append_assoc,
      parseNestedHeader_shape 6 (by norm_num),
      readNat_toLeBytes 4 qs.length _ hn,
      parsePolyGeomSeq_writeWkbPolyList qs rest hw'.2]
  | geometryCollection gs =>
    have hw' : gs.length < 2 ^ 32 ∧ geomListWfB gs = true := by
      simpa [geomWfB] using hw
    have hn : gs.length < 256 ^ 4 := by rw [pow256_4]; exact hw'.1
    have hf' : lfuel gs ≤ fuel := by
      simp only [gfuel] at hf; omega
    have hseq := parseGeomSeq_writeGeomList gs rest fuel hf' hw'.2
    simp [writeGeom, typeCode, bodyGeom, parseGeom, List.append_assoc,
      parseNestedHeader_shape 7 (by norm_num),
      readNat_toLeBytes 4 gs.length _ hn, hseq]

theorem parseGeomSeq_writeGeomList (gs : List Geom) (rest : List Nat) (fuel : Nat)
    (hf : lfuel gs ≤ fuel) (hw : geomListWfB gs = true) :
    parseGeomSeq fuel gs.length (writeGeomList gs ++ rest) = some (gs, rest) := by
  cases gs with
  | nil =>
    have h1 : 1 ≤ fuel := by simpa [lfuel] using hf
    obtain ⟨f, rfl⟩ : ∃ f, fuel = f + 1 := ⟨fuel - 1, by omega⟩
    simp [writeGeomList, parseGeomSeq]
  | cons g gs =>
    have hw' : geomWfB g = true ∧ geomListWfB gs = true := by
      simpa [geomListWfB] using hw
    have hd : max (gfuel g) (lfuel gs) + 1 ≤ fuel := by
      simpa [lfuel] using hf
    have hg1 : 1 ≤ gfuel g := gfuel_pos g
    obtain ⟨f, rfl⟩ : ∃ f, fuel = f + 1 := ⟨fuel - 1, by omega⟩
    obtain ⟨f', rfl⟩ : ∃ f', f = f' + 1 := ⟨f - 1, by omega⟩
    have hgeom := parseGeom_writeGeom g (writeGeomList gs ++ rest) f'
      (by omega) hw'.1
    have hrest := parseGeomSeq_writeGeomList gs rest (f' + 1)
      (by omega) hw'.2
    simp [writeGeomList_cons, parseGeomSeq, List.append_assoc, hgeom, hrest]

end

mutual

theorem gfuel_le_writeGeom_length (g : Geom) :
    gfuel g ≤ (writeGeom g).length := by
  cases g with
  | geometryCollection gs =>
    have h := lfuel_le_writeGeomList_length gs
    simp [writeGeom, bodyGeom, gfuel, List.length_append, toLeBytes_length]
    omega
  | point x y => simp [gfuel, writeGeom]
  | lineString ps => simp [gfuel, writeGeom]
  | polygon e i => simp [gfuel, writeGeom]
  | multiPoint ps => simp [gfuel, writeGeom]
  | multiLineString ls => simp [gfuel, writeGeom]
  | multiPolygon qs => simp [gfuel, writeGeom]

theorem lfuel_le_writeGeomList_length (gs : List Geom) :
    lfuel gs ≤ (writeGeomList gs).length + 1 := by
  cases gs with
  | nil => simp [lfuel, writeGeomList]
  | cons g gs =>
    have h1 := gfuel_le_writeGeom_length g
    have h2 := lfuel_le_writeGeomList_length gs
    have h3 : 1 ≤ (writeGeom g).length := by simp [writeGeom]
    simp only [lfuel, writeGeomList_cons, List.length_append]
    omega

end

/-! ## EWKB-level lemmas -/

theorem except_pure_eq {ε α : Type} (a : α) : (pure a : Except ε α) = Except.ok a := rfl

theorem except_bind_ok {ε α β : Type} (a : α) (f : α → Except ε β) :
    (Except.ok a : Except ε α) >>= f = f a := rfl

theorem except_bind_err {ε α β : Type} (e : ε) (f : α → Except ε β) :
    (Except.error e : Except ε α) >>= f = Except.error e := rfl

theorem except_bind_pure_ok {ε α : Type} (e : Except ε α) :
    (e >>= fun x => (Except.ok x : Except ε α)) = e := by
  cases e <;> rfl

theorem isNanBits_f64NanBits : isNanBits f64NanBits = true := by decide

theorem isNanBits_f64OneBits : isNanBits f64OneBits = false := by decide

theorem isNanBits_f64TwoBits : isNanBits f64TwoBits = false := by decide

theorem parseEwkbHeader_writeGeom (g : Geom) :
    parseEwkbHeader (writeGeom g) =
      .ok ⟨typeCode g, none, false, false, 5, true⟩ := by
  cases g <;>
    simp [writeGeom, typeCode, toLeBytes, parseEwkbHeader, fromBytesLE, except_pure_eq]

theorem writeGeom_point_eq (x y : Nat) :
    writeGeom (.point x y) = (1 :: toLeBytes 4 1) ++ (toLeBytes 8 x ++ toLeBytes 8 y) := by
  simp [writeGeom, typeCode, bodyGeom, writeCoord]

theorem pointIsEmpty_writeGeom_point (x y : Nat)
    (hx : x < 2 ^ 64) (hy : y < 2 ^ 64) :
    pointIsEmptyWithHeader (writeGeom (.point x y))
      ⟨1, none, false, false, 5, true⟩ = .ok (isNanBits x && isNanBits y) := by
  have hlen5 : (1 :: toLeBytes 4 1).length = 5 := by simp [toLeBytes_length]
  have hdrop5 : (writeGeom (.point x y)).drop 5 = toLeBytes 8 x ++ toLeBytes 8 y := by
    rw [writeGeom_point_eq]; exact List.drop_left' hlen5
  have hdrop13 : (writeGeom (.point x y)).drop 13 = toLeBytes 8 y := by
    have h1 : (writeGeom (.point x y)).drop 13 = ((writeGeom (.point x y)).drop 5).drop 8 := by
      rw [List.drop_drop]
    rw [h1, hdrop5]
    exact List.drop_left' (toLeBytes_length 8 x)
  have htakex : (toLeBytes 8 x ++ toLeBytes 8 y).take 8 = toLeBytes 8 x :=
    List.take_left' (toLeBytes_length 8 x)
  have htakey : (toLeBytes 8 y).take 8 = toLeBytes 8 y := by
    conv_lhs => rw [← toLeBytes_length 8 y]
    exact List.take_length _
  have hlen : (writeGeom (.point x y)).length = 21 := by
    rw [writeGeom_point_eq]
    simp [toLeBytes_length]
  have hxv : fromBytesLE (toLeBytes 8 x) = x := by
    rw [fromBytesLE_toLeBytes, pow256_8]; omega
  have hyv : fromBytesLE (toLeBytes 8 y) = y := by
    rw [fromBytesLE_toLeBytes, pow256_8]; omega
  simp [pointIsEmptyWithHeader, hlen, hdrop5, hdrop13, htakex, htakey, hxv, hyv, except_pure_eq]

theorem pointIsEmpty_writeGeom_nonpoint (g : Geom) (hne : typeCode g ≠ 1) :
    pointIsEmptyWithHeader (writeGeom g)
      ⟨typeCode g, none, false, false, 5, true⟩ = .ok false := by
  simp [pointIsEmptyWithHeader, hne, except_pure_eq]

theorem parseGeom_writeGeom_top (g : Geom) (hw : geomWfB g = true) :
    parseGeom ((writeGeom g).length + 1) (writeGeom g) = some (g, []) := by
  have h := parseGeom_writeGeom g [] (writeGeom g).length
    (le_trans (gfuel_le_writeGeom_length g) (Nat.le_succ _)) hw
  simpa using h

theorem writeEwkb_none (g : Geom) (hc : topCanonB g = true) :
    writeEwkb g none = .ok (writeGeom g) := by
  cases g with
  | point x y =>
    by_cases hnan : (isNanBits x && isNanBits y) = true
    · have hcc : x = f64NanBits ∧ y = f64NanBits := by
        simp only [topCanonB, hnan, Bool.not_true, Bool.false_or, Bool.and_eq_true,
          beq_iff_eq] at hc
        exact hc
      obtain ⟨rfl, rfl⟩ := hcc
      simp [writeEwkb, hnan, isNanBits_f64NanBits, writeGeom, typeCode, bodyGeom, writeCoord, except_pure_eq]
    · simp [writeEwkb, hnan, writeIsoThenPatch, except_pure_eq]
  | lineString ps => simp [writeEwkb, writeIsoThenPatch, except_pure_eq]
  | polygon e i => simp [writeEwkb, writeIsoThenPatch, except_pure_eq]
  | multiPoint ps => simp [writeEwkb, writeIsoThenPatch, except_pure_eq]
  | multiLineString ls => simp [writeEwkb, writeIsoThenPatch, except_pure_eq]
  | multiPolygon qs => simp [writeEwkb, writeIsoThenPatch, except_pure_eq]
  | geometryCollection gs => simp [writeEwkb, writeIsoThenPatch, except_pure_eq]

theorem parseEwkb_writeGeom (g : Geom) (hw : geomWfB g = true) (hc : topCanonB g = true) :
    parseEwkb (writeGeom g) = .ok (g, none) := by
  cases g with
  | point x y =>
    have hwf : x < 2 ^ 64 ∧ y < 2 ^ 64 := by
      simpa [geomWfB, coordWfB] using hw
    have hh := parseEwkbHeader_writeGeom (.point x y)
    have hpe := pointIsEmpty_writeGeom_point x y hwf.1 hwf.2
    by_cases hnan : (isNanBits x && isNanBits y) = true
    · have hcc : x = f64NanBits ∧ y = f64NanBits := by
        simp only [topCanonB, hnan, Bool.not_true, Bool.false_or, Bool.and_eq_true,
          beq_iff_eq] at hc
        exact hc
      obtain ⟨rfl, rfl⟩ := hcc
      simp [parseEwkb, hh, hpe, hnan, isNanBits_f64NanBits, ensureXyOnly, typeCode,
        except_pure_eq, except_bind_ok]
    · have hg := parseGeom_writeGeom_top (.point x y) hw
      simp [parseEwkb, hh, hpe, hnan, ensureXyOnly, typeCode, hg, except_pure_eq, except_bind_ok]
  | lineString ps =>
    have hh := parseEwkbHeader_writeGeom (.lineString ps)
    have hpe := pointIsEmpty_writeGeom_nonpoint (.lineString ps) (by simp [typeCode])
    simp only [typeCode] at hh hpe
    have hg := parseGeom_writeGeom_top (.lineString ps) hw
    simp [parseEwkb, hh, hpe, ensureXyOnly, typeCode, hg, except_pure_eq, except_bind_ok]
  | polygon e i =>
    have hh := parseEwkbHeader_writeGeom (.polygon e i)
    have hpe := pointIsEmpty_writeGeom_nonpoint (.polygon e i) (by simp [typeCode])
    simp only [typeCode] at hh hpe
    have hg := parseGeom_writeGeom_top (.polygon e i) hw
    simp [parseEwkb, hh, hpe, ensureXyOnly, typeCode, hg, except_pure_eq, except_bind_ok]
  | multiPoint ps =>
    have hh := parseEwkbHeader_writeGeom (.multiPoint ps)
    have hpe := pointIsEmpty_writeGeom_nonpoint (.multiPoint ps) (by simp [typeCode])
    simp only [typeCode] at hh hpe
    have hg := parseGeom_writeGeom_top (.multiPoint ps) hw
    simp [parseEwkb, hh, hpe, ensureXyOnly, typeCode, hg, except_pure_eq, except_bind_ok]
  | multiLineString ls =>
    have hh := parseEwkbHeader_writeGeom (.multiLineString ls)
    have hpe := pointIsEmpty_writeGeom_nonpoint (.multiLineString ls) (by simp [typeCode])
    simp only [typeCode] at hh hpe
    have hg := parseGeom_writeGeom_top (.multiLineString ls) hw
    simp [parseEwkb, hh, hpe, ensureXyOnly, typeCode, hg, except_pure_eq, except_bind_ok]
  | multiPolygon qs =>
    have hh := parseEwkbHeader_writeGeom (.multiPolygon qs)
    have hpe := pointIsEmpty_writeGeom_nonpoint (.multiPolygon qs) (by simp [typeCode])
    simp only [typeCode] at hh hpe
    have hg := parseGeom_writeGeom_top (.multiPolygon qs) hw
    simp [parseEwkb, hh, hpe, ensureXyOnly, typeCode, hg, except_pure_eq, except_bind_ok]
  | geometryCollection gs =>
    have hh := parseEwkbHeader_writeGeom (.geometryCollection gs)
    have hpe := pointIsEmpty_writeGeom_nonpoint (.geometryCollection gs) (by simp [typeCode])
    simp only [typeCode] at hh hpe
    have hg := parseGeom_writeGeom_top (.geometryCollection gs) hw
    simp [parseEwkb, hh, hpe, ensureXyOnly, typeCode, hg, except_pure_eq, except_bind_ok]

/-! ## Claim theorems -/

/-- C1: EWKB round-trip — for every XY geometry value `g` (including the
empty Point represented as `Point(NaN, NaN)`), emitting `g` with no SRID
succeeds, parsing the emitted blob yields `g` again with no SRID, and the
emitted blob carries no SRID flag and no SRID bytes (its header has
`srid = none` and the payload starts at offset 5).  The hypotheses are the
side conditions inherent to the Rust types: coordinates are 64-bit `f64`
patterns, sequence lengths fit in the `u32` count fields, and the empty
Point carries the canonical `f64::NAN` pattern named by the claim. -/
theorem c1_ewkb_roundtrip_no_srid (g : Geom)
    (hw : geomWfB g = true) (hc : topCanonB g = true) :
    writeEwkb g none = .ok (writeGeom g) ∧
    parseEwkb (writeGeom g) = .ok (g, none) ∧
    extractSrid (writeGeom g) = none ∧
    parseEwkbHeader (writeGeom g) = .ok ⟨typeCode g, none, false, false, 5, true⟩ := by
  refine ⟨writeEwkb_none g hc, parseEwkb_writeGeom g hw hc, ?_, parseEwkbHeader_writeGeom g⟩
  simp [extractSrid, parseEwkbHeader_writeGeom g]

/-- Witness for C1 at two concrete inputs: a two-point LineString and the
empty Point. -/
theorem c1_ewkb_roundtrip_no_srid_witness :
    (parseEwkb (writeGeom (.lineString [(f64OneBits, f64TwoBits), (f64TwoBits, f64OneBits)])) =
      .ok (.lineString [(f64OneBits, f64TwoBits), (f64TwoBits, f64OneBits)], none) ∧
     extractSrid (writeGeom (.lineString [(f64OneBits, f64TwoBits), (f64TwoBits, f64OneBits)])) = none) ∧
    (writeEwkb (.point f64NanBits f64NanBits) none =
      .ok (writeGeom (.point f64NanBits f64NanBits)) ∧
     parseEwkb (writeGeom (.point f64NanBits f64NanBits)) =
      .ok (.point f64NanBits f64NanBits, none)) :=
  ⟨⟨(c1_ewkb_roundtrip_no_srid _ (by decide) (by decide)).2.1,
    (c1_ewkb_roundtrip_no_srid _ (by decide) (by decide)).2.2.1⟩,
   ⟨(c1_ewkb_roundtrip_no_srid _ (by decide) (by decide)).1,
    (c1_ewkb_roundtrip_no_srid _ (by decide) (by decide)).2.1⟩⟩

/-- C2 counterexample: `st_make_line` on inputs with SRIDs 4326 and 3857 —
which disagree under the None/0 rule — does not fail; it succeeds and the
result carries the first input's SRID. -/
theorem c2_srid_propagation_counterexample :
    extractSrid blobPoint4326 = some 4326 ∧
    extractSrid blobPoint3857 = some 3857 ∧
    stMakeLine blobPoint4326 blobPoint3857 =
      writeEwkb (.lineString [(f64OneBits, f64TwoBits), (f64TwoBits, f64OneBits)]) (some 4326) ∧
    extractSrid ((stMakeLine blobPoint4326 blobPoint3857).toOption.getD []) = some 4326 ∧
    stCollect blobPoint4326 blobPoint3857 =
      writeEwkb (.geometryCollection [.point f64OneBits f64TwoBits, .point f64TwoBits f64OneBits])
        (some 4326) ∧
    extractSrid ((stCollect blobPoint4326 blobPoint3857).toOption.getD []) = some 4326 := by
  decide

/-- C2 (amended): `st_make_line` and `st_collect` never apply the SRID
matching rule — they parse both inputs, take the SRID of the **first**, and
emit the result with it, ignoring the second input's SRID entirely (no
error on mismatch).  The repository's own tests
(`st_make_line_srid_from_first_arg`, `st_collect_srid_from_first_arg`)
assert this behaviour. -/
theorem c2_srid_propagation_amended :
    (∀ a b xa ya xb yb sa sb,
      parseEwkb a = .ok (.point xa ya, sa) →
      parseEwkb b = .ok (.point xb yb, sb) →
      stMakeLine a b = writeEwkb (.lineString [(xa, ya), (xb, yb)]) sa) ∧
    (∀ a b ga gb sa sb,
      parseEwkb a = .ok (ga, sa) →
      parseEwkb b = .ok (gb, sb) →
      stCollect a b = writeEwkb (.geometryCollection [ga, gb]) sa) := by
  constructor
  · intro a b xa ya xb yb sa sb ha hb
    simp [stMakeLine, ha, hb, except_bind_ok, except_pure_eq]
  · intro a b ga gb sa sb ha hb
    simp [stCollect, ha, hb, except_bind_ok, except_pure_eq]

/-- Witness for C2's amended theorem at the concrete mixed-SRID pair. -/
theorem c2_srid_propagation_amended_witness :
    stMakeLine blobPoint4326 blobPoint3857 =
      writeEwkb (.lineString [(f64OneBits, f64TwoBits), (f64TwoBits, f64OneBits)]) (some 4326) ∧
    stCollect blobPoint4326 blobPoint3857 =
      writeEwkb (.geometryCollection [.point f64OneBits f64TwoBits, .point f64TwoBits f64OneBits])
        (some 4326) :=
  ⟨c2_srid_propagation_amended.1 blobPoint4326 blobPoint3857
      f64OneBits f64TwoBits f64TwoBits f64OneBits (some 4326) (some 3857)
      (by decide) (by decide),
   c2_srid_propagation_amended.2 blobPoint4326 blobPoint3857
      (.point f64OneBits f64TwoBits) (.point f64TwoBits f64OneBits) (some 4326) (some 3857)
      (by decide) (by decide)⟩

/-- C3: the claim is right and the code is wrong.  `st_is_empty` returns
`false` on the empty-Point blob and on a GeometryCollection whose only
member is empty, while the repository's own emptiness classifier
`is_empty_geometry` — and its integration tests (`point_empty_roundtrip`,
`st_is_empty_collections_with_only_empty_members`) — classify both as
empty. -/
theorem c3_st_is_empty_code_bug :
    stIsEmpty blobEmptyPoint = .ok false ∧
    isEmptyGeometry (.point f64NanBits f64NanBits) = true ∧
    stIsEmpty blobGcEmptyLine = .ok false ∧
    isEmptyGeometry (.geometryCollection [.lineString []]) = true := by
  decide

/-- C4 counterexample: `st_union` of the unit square with itself — a result
containing exactly one polygon — is emitted with WKB type code 6
(MultiPolygon), not as a Polygon (type code 3) as the claim requires. -/
theorem c4_set_op_typing_counterexample :
    stUnionSelf blobUnitSquare = writeEwkb (.multiPolygon [(unitSquareRing, [])]) none ∧
    parseEwkbHeader ((stUnionSelf blobUnitSquare).toOption.getD []) =
      .ok ⟨6, none, false, false, 5, true⟩ := by
  decide

/-- C4 (amended): `st_union`, `st_intersection`, `st_difference` and
`st_sym_difference` all emit their result through `binary_polygon_op`, which
always wraps it as `Geometry::MultiPolygon` — no matter how many polygons
the boolean operation produced; only `st_buffer` emits the most specific
type. -/
theorem c4_set_op_typing_amended
    (op : List (GRing × List GRing) → List (GRing × List GRing) → List (GRing × List GRing))
    (a b : List Nat) (ga gb : Geom) (srid : Option Int)
    (ma mb : List (GRing × List GRing))
    (hp : parseEwkbPair a b = .ok (ga, gb, srid))
    (hma : requireMultiPolygon ga = .ok ma)
    (hmb : requireMultiPolygon gb = .ok mb) :
    binaryPolygonOp op a b = writeEwkb (.multiPolygon (op ma mb)) srid := by
  simp [binaryPolygonOp, hp, hma, hmb, except_bind_ok, except_pure_eq, except_bind_pure_ok]

/-- Witness for C4's amended theorem at the unit-square self-union. -/
theorem c4_set_op_typing_amended_witness :
    binaryPolygonOp (fun ma _ => unionWithSelf ma) blobUnitSquare blobUnitSquare =
      writeEwkb (.multiPolygon [(unitSquareRing, [])]) none :=
  c4_set_op_typing_amended (fun ma _ => unionWithSelf ma) blobUnitSquare blobUnitSquare
    (.polygon unitSquareRing []) (.polygon unitSquareRing []) none
    [(unitSquareRing, [])] [(unitSquareRing, [])]
    (by decide) (by decide) (by decide)

/-- C5: the claim is right and the code is wrong.  On the empty-Point blob
`st_x` / `st_y` return `Ok` of the NaN bit pattern — a NaN double, not the
`Ok(None)` → SQL NULL the claim (and the `xfunc_blob_opt_f64!` wrapper the
binding registers them with, and the test `st_x_y_point_empty_returns_null`)
require.  On a non-empty Point they return the coordinate and on a
non-Point input they fail with `WrongType("Point")`, as the claim states. -/
theorem c5_st_x_empty_point_code_bug :
    stX blobEmptyPoint = .ok f64NanBits ∧
    stY blobEmptyPoint = .ok f64NanBits ∧
    isNanBits f64NanBits = true ∧
    stX blobPoint12 = .ok f64OneBits ∧
    stY blobPoint12 = .ok f64TwoBits ∧
    stX blobLine = .error (.wrongType "Point") ∧
    stY blobLine = .error (.wrongType "Point") := by
  decide

/-- C6 counterexample: a pattern with the unknown character `X`, and a
matrix/pattern of wrong length, make `st_relate_match` return `false` — its
return type is a plain `bool` with no error channel — and make the
three-argument `st_relate_match_geoms` return `Ok(false)`; the claim
requires an InvalidInput error in all four cases. -/
theorem c6_de9im_pattern_counterexample :
    stRelateMatch "0FFFFFFF2" "XFFFFFFFF" = false ∧
    stRelateMatch "0FFF" "T*****FF*" = false ∧
    stRelateMatch "0FFFFFFF2" "T*" = false ∧
    stRelateMatchGeoms blobPoint12 blobPoint12 "XFFFFFFFF" = .ok false ∧
    stRelateMatchGeoms blobPoint12 blobPoint12 "T*" = .ok false := by
  decide

/-- C6 (amended): malformed DE-9IM arguments are answered with `false`, not
an error: `st_relate_match` returns `false` whenever either string's length
is not 9 or the (9-character) pattern contains a character outside
`{T, F, 0, 1, 2, *}`, and `st_relate_match_geoms` returns `Ok(false)` for
every malformed pattern whenever its two blobs parse with matching SRIDs.
The repository's own unit tests (`pattern_match_wrong_length`,
`pattern_match_unknown_char_fails`) assert exactly this. -/
theorem c6_de9im_pattern_amended :
    (∀ matrix pattern : String, matrix.length ≠ 9 ∨ pattern.length ≠ 9 →
      stRelateMatch matrix pattern = false) ∧
    (∀ matrix pattern : String, matrix.length = 9 →
      pattern.toList.any (fun c =>
        !(c == 'T' || c == 'F' || c == '*' || c == '0' || c == '1' || c == '2')) = true →
      stRelateMatch matrix pattern = false) ∧
    (∀ a b ga gb sa sb srid (pattern : String),
      parseEwkb a = .ok (ga, sa) → parseEwkb b = .ok (gb, sb) →
      ensureMatchingSrid sa sb = .ok srid →
      (pattern.length ≠ 9 ∨ pattern.toList.any (fun c =>
        !(c == 'T' || c == 'F' || c == '*' || c == '0' || c == '1' || c == '2')) = true) →
      stRelateMatchGeoms a b pattern = .ok false) := by
  refine ⟨?_, ?_, ?_⟩
  · intro matrix pattern h
    simp only [stRelateMatch, de9imPatternMatch]
    rcases h with h | h <;> simp [h]
  · intro matrix pattern hm hbad
    by_cases hp : pattern.length = 9
    · have hcond : (decide (matrix.length ≠ 9) || decide (pattern.length ≠ 9)) = false := by
        simp [hm, hp]
      simp only [stRelateMatch, de9imPatternMatch, hcond, Bool.false_eq_true, if_false]
      rcases List.any_eq_true.mp hbad with ⟨c, hcmem, hc⟩
      obtain ⟨i, hi, hci⟩ := List.mem_iff_getElem.mp hcmem
      rw [List.all_eq_false]
      have hmlen : matrix.toList.length = 9 := hm
      have hplen : pattern.toList.length = 9 := hp
      have hizip : i < (matrix.toList.zip pattern.toList).length := by
        simp only [List.length_zip, hmlen, hplen]
        omega
      refine ⟨(matrix.toList.zip pattern.toList)[i], List.getElem_mem hizip, ?_⟩
      have hsnd : (matrix.toList.zip pattern.toList)[i].2 = c := by
        rw [List.getElem_zip]
        simpa using hci
      simp only [Bool.not_eq_true', Bool.or_eq_false_iff, beq_eq_false_iff_ne, ne_eq] at hc
      rw [Bool.not_eq_true]
      rcases hmp : (matrix.toList.zip pattern.toList)[i] with ⟨m, p⟩
      rw [hmp] at hsnd
      simp only at hsnd
      subst hsnd
      obtain ⟨⟨⟨⟨⟨hT, hF⟩, hS⟩, h0⟩, h1⟩, h2⟩ := hc
      split <;>
        first
          | rfl
          | exact absurd (by assumption) hS
          | exact absurd (by assumption) hT
          | exact absurd (by assumption) hF
          | exact absurd (by assumption) h0
          | exact absurd (by assumption) h1
          | exact absurd (by assumption) h2
    · simp [stRelateMatch, de9imPatternMatch, hp]
  · intro a b ga gb sa sb srid pattern ha hb hs hbad
    have hmp : ∃ msg, matchesPattern (relateMatrix ga gb) pattern = Except.error msg := by
      unfold matchesPattern
      rcases hbad with h | h
      · exact ⟨"invalid pattern length", by rw [if_pos h]; rfl⟩
      · by_cases hp : pattern.length = 9
        · refine ⟨"invalid pattern character", ?_⟩
          rw [if_neg (fun hne => hne hp), if_pos h]
          rfl
        · exact ⟨"invalid pattern length", by rw [if_pos hp]; rfl⟩
    rcases hmp with ⟨msg, h⟩
    simp [stRelateMatchGeoms, ha, hb, hs, h, Except.toOption,
      except_bind_ok, except_pure_eq]

/-- Witness for C6's amended theorem at a short matrix and an unknown
pattern character. -/
theorem c6_de9im_pattern_amended_witness :
    stRelateMatch "0FFF" "T*****FF*" = false ∧
    stRelateMatchGeoms blobPoint12 blobPoint12 "XFFFFFFFF" = .ok false :=
  ⟨c6_de9im_pattern_amended.1 "0FFF" "T*****FF*" (Or.inl (by decide)),
   c6_de9im_pattern_amended.2.2 blobPoint12 blobPoint12 (.point f64OneBits f64TwoBits)
     (.point f64OneBits f64TwoBits) none none none "XFFFFFFFF"
     (by decide) (by decide) (by decide) (Or.inr (by decide))⟩

/-- C7: the claim is right and the code is wrong.  The legacy Z-Point blob
(type word `1001 = Point + 1000`) is classified as Z by `wkb_has_z_or_m`
and rejected with `UnsupportedDimensions` by `geom_from_wkb`, but the
XY-only guard of `parse_ewkb` / `validate_xy_ewkb_payload` — which only
inspects the EWKB flag bits of the parsed header — sees `has_z = has_m =
false` and lets the blob through (`ensure_xy_only` succeeds), so those
paths never raise `UnsupportedDimensions` for a legacy-encoded Z payload
(the payload is handed to the generic decoder instead). -/
theorem c7_legacy_dimensionality_code_bug :
    parseEwkbHeader blobLegacyZPoint = .ok ⟨1001, none, false, false, 5, true⟩ ∧
    ensureXyOnly false false = .ok () ∧
    wkbHasZOrM 1001 = (true, false) ∧
    geomFromWkb blobLegacyZPoint none = .error (.unsupportedDimensions "Z") ∧
    (∀ d : String, parseEwkb blobLegacyZPoint ≠ .error (.unsupportedDimensions d)) := by
  refine ⟨by decide, by decide, by decide, by decide, ?_⟩
  intro d
  have h : parseEwkb blobLegacyZPoint = .error (.codec "EWKB payload decode failed") := by
    decide
  simp [h]

/-- C8: the claim is right and the code is wrong.  `st_point` performs no
finiteness check: with `x = +∞` (the value of the literal `1e309`) it
succeeds and emits a blob instead of failing with InvalidInput, and with a
single NaN coordinate it succeeds as well.  The repository's own test
`st_point_rejects_non_finite_coordinates_execution` expects the error
message `"coordinates must be finite"`, which no code path produces. -/
theorem c8_st_point_nonfinite_code_bug :
    stPoint f64InfBits 0 none = .ok (writeGeom (.point f64InfBits 0)) ∧
    isFiniteBits f64InfBits = false ∧
    (stPoint f64NanBits 0 (some 4326)).isOk = true := by
  decide

/-! ## Geodetic guard lemmas (toward C9) -/

theorem except_throw_eq {ε α : Type} (e : ε) : (throw e : Except ε α) = Except.error e := rfl

theorem ensureGeographicSrid_ok (s : Option Int) (fn : String) (u : Unit)
    (h : ensureGeographicSrid s fn = .ok u) : s = some 4326 := by
  unfold ensureGeographicSrid at h
  split at h <;> simp_all [except_throw_eq, except_pure_eq]

theorem ensureMatchingSrid_ok_4326 (sa sb : Option Int)
    (h : ensureMatchingSrid sa sb = .ok (some 4326)) :
    sa = some 4326 ∧ sb = some 4326 := by
  simp only [ensureMatchingSrid] at h
  by_cases hne : sa.getD 0 ≠ sb.getD 0
  · rw [if_pos hne] at h
    simp [except_throw_eq] at h
  · rw [if_neg hne] at h
    by_cases hnn : (sa.isNone && sb.isNone) = true
    · rw [if_pos hnn] at h
      simp [except_pure_eq] at h
    · rw [if_neg hnn] at h
      simp only [except_pure_eq, Except.ok.injEq, Option.some.injEq] at h
      rcases sa with _ | va <;> rcases sb with _ | vb <;> simp_all

theorem extractSrid_of_parseEwkb (a : List Nat) (g : Geom) (s : Option Int)
    (h : parseEwkb a = .ok (g, s)) : extractSrid a = s := by
  unfold parseEwkb at h
  rcases hh : parseEwkbHeader a with e | hd
  · rw [hh] at h; simp [except_bind_err] at h
  · rw [hh] at h
    simp only [except_bind_ok] at h
    rcases hxy : ensureXyOnly hd.hasZ hd.hasM with e | u
    · rw [hxy] at h; simp [except_bind_err] at h
    · rw [hxy] at h
      simp only [except_bind_ok] at h
      rcases hpe : pointIsEmptyWithHeader a hd with e | bb
      · rw [hpe] at h; simp [except_bind_err] at h
      · rw [hpe] at h
        simp only [except_bind_ok] at h
        have hs : s = hd.srid := by
          cases bb with
          | true =>
            simp only [if_true, except_pure_eq, Except.ok.injEq, Prod.mk.injEq] at h
            exact h.2.symm
          | false =>
            simp only [Bool.false_eq_true, if_false] at h
            rcases hpg : parseGeom (a.length + 1) a with _ | gr
            · rw [hpg] at h; simp [except_throw_eq] at h
            · rw [hpg] at h
              obtain ⟨g', rest⟩ := gr
              simp only [except_pure_eq, Except.ok.injEq, Prod.mk.injEq] at h
              exact h.2.symm
        rw [hs]
        simp [extractSrid, hh]

theorem matchingGeographic_components (sa sb : Option Int) (fn : String) (srid : Option Int)
    (h : ensureMatchingGeographicSrid sa sb fn = .ok srid) :
    sa = some 4326 ∧ sb = some 4326 := by
  unfold ensureMatchingGeographicSrid at h
  rcases hm : ensureMatchingSrid sa sb with e | s0
  · rw [hm] at h; simp [except_bind_err] at h
  · rw [hm] at h
    simp only [except_bind_ok] at h
    rcases hg : ensureGeographicSrid s0 fn with e | u
    · rw [hg] at h; simp [except_bind_err] at h
    · have h0 : s0 = some 4326 := ensureGeographicSrid_ok s0 fn u hg
      subst h0
      exact ensureMatchingSrid_ok_4326 sa sb hm

theorem parseTwoGeographic_srids (a b : List Nat) (fn : String)
    (pa pb : Coord) (srid : Option Int)
    (h : parseTwoGeographicPoints a b fn = .ok (pa, pb, srid)) :
    extractSrid a = some 4326 ∧ extractSrid b = some 4326 := by
  unfold parseTwoGeographicPoints at h
  rcases hA : parseEwkb a with e | ga'
  · rw [hA] at h; simp [except_bind_err] at h
  · rw [hA] at h
    obtain ⟨ga, sa⟩ := ga'
    simp only [except_bind_ok] at h
    rcases hB : parseEwkb b with e | gb'
    · rw [hB] at h; simp [except_bind_err] at h
    · rw [hB] at h
      obtain ⟨gb, sb⟩ := gb'
      simp only [except_bind_ok] at h
      rcases hM : ensureMatchingGeographicSrid sa sb fn with e | srid'
      · rw [hM] at h; simp [except_bind_err] at h
      · have h4 := matchingGeographic_components sa sb fn srid' hM
        refine ⟨?_, ?_⟩
        · rw [extractSrid_of_parseEwkb a ga sa hA, h4.1]
        · rw [extractSrid_of_parseEwkb b gb sb hB, h4.2]

theorem parseTwoGeographic_emptyA (b : List Nat) (fn : String)
    (pa pb : Coord) (srid : Option Int) :
    parseTwoGeographicPoints blobEmptyPoint4326 b fn ≠ .ok (pa, pb, srid) := by
  intro h
  unfold parseTwoGeographicPoints at h
  have hA : parseEwkb blobEmptyPoint4326 = .ok (.point f64NanBits f64NanBits, some 4326) := by
    decide
  rw [hA] at h
  simp only [except_bind_ok] at h
  rcases hB : parseEwkb b with e | gb'
  · rw [hB] at h; simp [except_bind_err] at h
  · rw [hB] at h
    obtain ⟨gb, sb⟩ := gb'
    simp only [except_bind_ok] at h
    rcases hM : ensureMatchingGeographicSrid (some 4326) sb fn with e | srid'
    · rw [hM] at h; simp [except_bind_err] at h
    · rw [hM] at h
      simp only [except_bind_ok] at h
      have hre : requireNonEmptyPoint (f64NanBits, f64NanBits) fn =
          .error (.invalidInput (fn ++ " does not accept empty points")) := by
        simp [requireNonEmptyPoint, isNanBits_f64NanBits, except_throw_eq]
      simp [requirePoint, hre, except_bind_ok, except_bind_err,
        except_pure_eq, except_throw_eq] at h

/-- C9: geodetic SRID discipline.  Each of `st_distance_sphere`,
`st_distance_spheroid`, `st_azimuth`, `st_length_sphere` and `st_project`
succeeds only when every geometry input carries SRID 4326 (an absent SRID
or any other SRID on any input makes the operation fail), and an empty
Point input is rejected: with the empty Point (SRID 4326) as an operand the
three two-point operations and `st_project` fail for every other operand,
and `st_length_sphere` rejects it with `WrongType`. -/
theorem c9_geodetic_srid_discipline :
    (∀ a b u, stDistanceSphere a b = .ok u →
      extractSrid a = some 4326 ∧ extractSrid b = some 4326) ∧
    (∀ a b u, stDistanceSpheroid a b = .ok u →
      extractSrid a = some 4326 ∧ extractSrid b = some 4326) ∧
    (∀ a b u, stAzimuth a b = .ok u →
      extractSrid a = some 4326 ∧ extractSrid b = some 4326) ∧
    (∀ a u, stLengthSphere a = .ok u → extractSrid a = some 4326) ∧
    (∀ a d z u, stProject a d z = .ok u → extractSrid a = some 4326) ∧
    (∀ b u, stDistanceSphere blobEmptyPoint4326 b ≠ .ok u) ∧
    (∀ b u, stDistanceSpheroid blobEmptyPoint4326 b ≠ .ok u) ∧
    (∀ b u, stAzimuth blobEmptyPoint4326 b ≠ .ok u) ∧
    (∀ d z u, stProject blobEmptyPoint4326 d z ≠ .ok u) ∧
    stLengthSphere blobEmptyPoint4326 = .error (.wrongType "LineString or MultiLineString") := by
  have htwo : ∀ (f : List Nat → List Nat → Except GeoErr Unit) (fn : String),
      (∀ a b, f a b = (do
        let _ ← parseTwoGeographicPoints a b fn
        pure ())) →
      (∀ a b u, f a b = .ok u → extractSrid a = some 4326 ∧ extractSrid b = some 4326) ∧
      (∀ b u, f blobEmptyPoint4326 b ≠ .ok u) := by
    intro f fn hdef
    constructor
    · intro a b u h
      rw [hdef] at h
      rcases hp : parseTwoGeographicPoints a b fn with e | tri
      · rw [hp] at h; simp [except_bind_err] at h
      · obtain ⟨pa, pb, srid⟩ := tri
        exact parseTwoGeographic_srids a b fn pa pb srid hp
    · intro b u h
      rw [hdef] at h
      rcases hp : parseTwoGeographicPoints blobEmptyPoint4326 b fn with e | tri
      · rw [hp] at h; simp [except_bind_err] at h
      · obtain ⟨pa, pb, srid⟩ := tri
        exact parseTwoGeographic_emptyA b fn pa pb srid hp
  have hsph := htwo stDistanceSphere "ST_DistanceSphere" (fun a b => rfl)
  have hsphd := htwo stDistanceSpheroid "ST_DistanceSpheroid" (fun a b => rfl)
  have haz := htwo stAzimuth "ST_Azimuth" (fun a b => rfl)
  refine ⟨hsph.1, hsphd.1, haz.1, ?_, ?_, hsph.2, hsphd.2, haz.2, ?_, by decide⟩
  · intro a u h
    unfold stLengthSphere at h
    rcases hA : parseEwkb a with e | ga'
    · rw [hA] at h; simp [except_bind_err] at h
    · rw [hA] at h
      obtain ⟨geom, srid⟩ := ga'
      simp only [except_bind_ok] at h
      rcases hg : ensureGeographicSrid srid "ST_LengthSphere" with e | u'
      · rw [hg] at h; simp [except_bind_err] at h
      · rw [extractSrid_of_parseEwkb a geom srid hA]
        exact ensureGeographicSrid_ok srid "ST_LengthSphere" u' hg
  · intro a d z u h
    unfold stProject at h
    rcases hA : parseEwkb a with e | ga'
    · rw [hA] at h; simp [except_bind_err] at h
    · rw [hA] at h
      obtain ⟨geom, srid⟩ := ga'
      simp only [except_bind_ok] at h
      rcases hg : ensureGeographicSrid srid "ST_Project" with e | u'
      · rw [hg] at h; simp [except_bind_err] at h
      · rw [extractSrid_of_parseEwkb a geom srid hA]
        exact ensureGeographicSrid_ok srid "ST_Project" u' hg
  · intro d z u h
    unfold stProject at h
    have hA : parseEwkb blobEmptyPoint4326 = .ok (.point f64NanBits f64NanBits, some 4326) := by
      decide
    rw [hA] at h
    simp only [except_bind_ok] at h
    have hgeo : ensureGeographicSrid (some 4326) "ST_Project" = .ok () := by decide
    rw [hgeo] at h
    simp only [except_bind_ok] at h
    have hrp : requirePoint (.point f64NanBits f64NanBits) = .ok (f64NanBits, f64NanBits) := rfl
    rw [hrp] at h
    simp only [except_bind_ok] at h
    have hre : requireNonEmptyPoint (f64NanBits, f64NanBits) "ST_Project" =
        .error (.invalidInput ("ST_Project" ++ " does not accept empty points")) := by
      simp [requireNonEmptyPoint, isNanBits_f64NanBits, except_throw_eq]
    rw [hre] at h
    simp [except_bind_err] at h

/-- Witness for C9 at concrete SRID-4326 inputs. -/
theorem c9_geodetic_srid_discipline_witness :
    stDistanceSphere blobPoint4326 blobPointB4326 = .ok () ∧
    (extractSrid blobPoint4326 = some 4326 ∧ extractSrid blobPointB4326 = some 4326) ∧
    stLengthSphere blobLine4326 = .ok () ∧
    extractSrid blobLine4326 = some 4326 :=
  ⟨by decide,
   c9_geodetic_srid_discipline.1 blobPoint4326 blobPointB4326 () (by decide),
   by decide,
   c9_geodetic_srid_discipline.2.2.2.1 blobLine4326 () (by decide)⟩

/-- C10 counterexample: a SQL NULL table or column argument to
CreateSpatialIndex / DropSpatialIndex raises an error ("… must not be
NULL") instead of propagating NULL, contradicting the claim's universal
NULL-propagation including the two DDL helpers. -/
theorem c10_null_propagation_counterexample :
    createSpatialIndexXfunc .sqlNull (.value "geom") =
      .error "CreateSpatialIndex: table name must not be NULL" ∧
    dropSpatialIndexXfunc (.value "tbl") .sqlNull =
      .error "DropSpatialIndex: column name must not be NULL" := by
  decide

/-- C10 (amended): every scalar callback generated by the blob-argument
wrappers (`xfunc_blob!`, `xfunc_blob2!`, `xfunc_blob_opt_f64!`) and the
special `st_point_impl` returns SQL NULL, without invoking the core
function, when any positional argument is NULL — but the two spatial-index
DDL helpers instead raise an error for a NULL table or column name. -/
theorem c10_null_propagation_amended :
    (∀ (α : Type) (label : String) (f : List Nat → Except GeoErr α),
      xfuncBlob label f none = .null) ∧
    (∀ (α : Type) (label : String) (f : List Nat → List Nat → Except GeoErr α)
      (b : Option (List Nat)),
      xfuncBlob2 label f none b = .null ∧ xfuncBlob2 label f b none = .null) ∧
    (∀ (label : String) (f : List Nat → Except GeoErr (Option Nat)),
      xfuncBlobOptF64 label f none = .null) ∧
    (∀ (y : Option Nat) (s : Option (Option Int)), stPointImpl none y s = .null) ∧
    (∀ (x : Option Nat) (s : Option (Option Int)), stPointImpl x none s = .null) ∧
    (∀ (x y : Option Nat), stPointImpl x y none = .null) ∧
    (∀ (c : SqlTextArg) (label : String),
      getTableColumn .sqlNull c label = .error (label ++ ": table name must not be NULL")) ∧
    (∀ (s : String) (label : String),
      getTableColumn (.value s) .sqlNull label =
        .error (label ++ ": column name must not be NULL")) ∧
    (∀ c : SqlTextArg, createSpatialIndexXfunc .sqlNull c =
      .error "CreateSpatialIndex: table name must not be NULL") ∧
    (∀ s : String, dropSpatialIndexXfunc (.value s) .sqlNull =
      .error "DropSpatialIndex: column name must not be NULL") := by
  refine ⟨fun α label f => rfl, ?_, fun label f => rfl, fun y s => ?_, fun x s => ?_,
    fun x y => ?_, fun c label => rfl, fun s label => rfl, fun c => rfl, fun s => rfl⟩
  · intro α label f b
    exact ⟨rfl, by cases b <;> rfl⟩
  · rfl
  · cases x <;> rfl
  · cases x <;> cases y <;> rfl
